import Mathlib

/-!
Shallow embedding of the CBUS library core (src/CBUS.cpp, src/CBUS.h).

The dispatcher `process_single_message`, the enumeration machinery
(`CANenumeration`, `recordResponse`, `selectFreeId`, `checkCANenum`) and the
circular frame buffer `circular_buffer2` are translated from src/CBUS.cpp.
The configuration store `CBUSConfig` is an external collaborator of the
library (its implementation is not part of this repository); it is modelled
from the specification's description of the ConfigStore interface.  Machine
bytes are modelled as `Nat` normalised with `% 256` at each read of a byte
location; `unsigned int` counters wrap at `2 ^ 32`.
-/

/-- Function update helper used to model an in-place write to a byte array. -/
def fupd {α : Type} (f : Nat → α) (i : Nat) (v : α) : Nat → α :=
  fun j => if j = i then v else f j

/-- Update helper for two-dimensional storage (per-slot event variables). -/
def fupd2 (f : Nat → Nat → Nat) (i k v : Nat) : Nat → Nat → Nat :=
  fun j => if j = i then fupd (f j) k v else f j

/-- Forward linear scan for the first index satisfying a predicate, mirroring
the for-loops of the source; `none` when no index in `[start, start+count)`
satisfies the predicate. -/
def scanFirst (p : Nat → Bool) (start count : Nat) : Option Nat :=
  match count with
  | 0 => none
  | k + 1 => if p start then some start else scanFirst p (start + 1) k

/-- Arduino bitRead macro: `(x >> n) & 1`. -/
def bitRead (x n : Nat) : Nat := x / 2 ^ n % 2

/-- Arduino bitWrite macro with bit value 1 (bitSet): `x | (1 << n)`. -/
def bitSetAt (x n : Nat) : Nat := x ||| 2 ^ n

/-- Wrap-around modulus of the `unsigned int` counters (32-bit targets). -/
def UINT_MOD : Nat := 4294967296

/-- High byte of a 16-bit word, as the Arduino highByte macro. -/
def highByte (w : Nat) : Nat := w / 256 % 256

/-- Low byte of a 16-bit word, as the Arduino lowByte macro. -/
def lowByte (w : Nat) : Nat := w % 256

/-- CAN/CBUS message type (class CANFrame of CBUS.h). -/
structure CANFrame where
  id : Nat
  ext : Bool
  rtr : Bool
  len : Nat
  data : Nat → Nat

/-- Read one payload byte; the C array has type `uint8_t[8]`, so every read
yields a value below 256. -/
def CANFrame.byte (f : CANFrame) (i : Nat) : Nat := f.data i % 256

/-- Observable state of one indicator LED (CBUSLED is an external collaborator;
modelled from the spec: indicators expose on, off, blink and pulse). -/
inductive LEDState
  | ledOff
  | ledOn
  | ledBlink
  | ledPulse
deriving DecidableEq

/-- One frame handed to the bus driver by sendMessage, together with the
rtr/ext flags passed alongside it. -/
structure Sent where
  frame : CANFrame
  rtr : Bool
  ext : Bool

/-- Modelled from the spec: the ConfigStore (class CBUSConfig, an external
collaborator whose implementation is not in this repository).  `events i` is
`some (nn, en)` when event-table slot `i` holds a stored event header,
`evHash` is the hash-table accelerator (non-zero exactly for occupied slots
when consistent), `evVars i k` is the ev-variable storage of slot `i`, and
`nvs` the node-variable array. -/
structure CBUSConfig where
  nodeNum : Nat
  CANID : Nat
  FLiM : Bool
  EE_MAX_EVENTS : Nat
  EE_NUM_EVS : Nat
  EE_NUM_NVS : Nat
  events : Nat → Option (Nat × Nat)
  evHash : Nat → Nat
  evVars : Nat → Nat → Nat
  nvs : Nat → Nat

namespace CBUSConfig

/-- Modelled from the spec: setters of the ConfigStore persist the value. -/
def setNodeNum (c : CBUSConfig) (nn : Nat) : CBUSConfig := { c with nodeNum := nn }

/-- Modelled from the spec: persist the flexible-mode flag. -/
def setFLiM (c : CBUSConfig) (b : Bool) : CBUSConfig := { c with FLiM := b }

/-- Modelled from the spec: persist the bus identifier. -/
def setCANID (c : CBUSConfig) (idv : Nat) : CBUSConfig := { c with CANID := idv }

/-- Hash value of an event-table slot: zero for an empty slot, non-zero for an
occupied one. -/
def occVal : Option (Nat × Nat) → Nat
  | none => 0
  | some _ => 1

/-- Modelled from the spec: read the hash-table entry of slot `i`. -/
def getEvTableEntry (c : CBUSConfig) (i : Nat) : Nat := c.evHash i

/-- Modelled from the spec: `find_existing(nn,en)` returns an index below
`EE_MAX_EVENTS` iff a matching entry exists; the scan is first-match. -/
def findExistingEvent (c : CBUSConfig) (nn en : Nat) : Nat :=
  (scanFirst (fun i => decide (c.events i = some (nn, en))) 0 c.EE_MAX_EVENTS).getD
    c.EE_MAX_EVENTS

/-- Modelled from the spec: first empty event-table slot, `EE_MAX_EVENTS` when
the table is full. -/
def findEventSpace (c : CBUSConfig) : Nat :=
  (scanFirst (fun i => decide (c.events i = none)) 0 c.EE_MAX_EVENTS).getD
    c.EE_MAX_EVENTS

/-- Modelled from the spec: write the 4-byte event header (nn, en) of slot `i`. -/
def writeEvent (c : CBUSConfig) (i nn en : Nat) : CBUSConfig :=
  { c with events := fupd c.events i (some (nn, en)) }

/-- Modelled from the spec: clear event-table slot `i`. -/
def cleareventEEPROM (c : CBUSConfig) (i : Nat) : CBUSConfig :=
  { c with events := fupd c.events i none }

/-- Modelled from the spec: recompute the hash of slot `i` from its stored
header. -/
def updateEvHashEntry (c : CBUSConfig) (i : Nat) : CBUSConfig :=
  { c with evHash := fupd c.evHash i (occVal (c.events i)) }

/-- Modelled from the spec: rebuild the hash table after all events cleared. -/
def clearEvHashTable (c : CBUSConfig) : CBUSConfig :=
  { c with evHash := fun _ => 0 }

/-- Modelled from the spec: persist ev-variable `evnum` of slot `i`. -/
def writeEventEV (c : CBUSConfig) (i evnum evval : Nat) : CBUSConfig :=
  { c with evVars := fupd2 c.evVars i evnum evval }

/-- Modelled from the spec: read ev-variable `evnum` of slot `i` (a byte). -/
def getEventEVval (c : CBUSConfig) (i evnum : Nat) : Nat := c.evVars i evnum % 256

/-- Modelled from the spec: read node variable `i` (a byte). -/
def readNV (c : CBUSConfig) (i : Nat) : Nat := c.nvs i % 256

/-- Modelled from the spec: write node variable `i`. -/
def writeNV (c : CBUSConfig) (i v : Nat) : CBUSConfig :=
  { c with nvs := fupd c.nvs i v }

/-- Modelled from the spec: number of occupied event-table slots. -/
def numEvents (c : CBUSConfig) : Nat :=
  (List.range c.EE_MAX_EVENTS).countP (fun i => (c.events i).isSome)

/-- Modelled from the spec: read the 4 header bytes of slot `i`
(readEvent copies nn-hi, nn-lo, en-hi, en-lo). -/
def readEvent (c : CBUSConfig) (i : Nat) : Nat → Nat :=
  match c.events i with
  | none => fun _ => 0
  | some (nn, en) => fun j =>
      if j = 0 then highByte nn
      else if j = 1 then lowByte nn
      else if j = 2 then highByte en
      else lowByte en

end CBUSConfig

/-- CBUS modes (enum of CBUS.h). -/
def MODE_SLIM : Nat := 0

/-- FLiM mode indicator value. -/
def MODE_FLIM : Nat := 1

/-- Mode-transition indicator value. -/
def MODE_CHANGING : Nat := 2

/-- Opcode values from cbusdefs.h (external header; standard MERG values). -/
def OPC_ACON : Nat := 0x90
def OPC_ACOF : Nat := 0x91
def OPC_ARON : Nat := 0x93
def OPC_AROF : Nat := 0x94
def OPC_EVULN : Nat := 0x95
def OPC_NVSET : Nat := 0x96
def OPC_NVANS : Nat := 0x97
def OPC_ASON : Nat := 0x98
def OPC_ASOF : Nat := 0x99
def OPC_PARAN : Nat := 0x9B
def OPC_REVAL : Nat := 0x9C
def OPC_ACON1 : Nat := 0xB0
def OPC_ACOF1 : Nat := 0xB1
def OPC_ARON1 : Nat := 0xB3
def OPC_AROF1 : Nat := 0xB4
def OPC_NEVAL : Nat := 0xB5
def OPC_PNN : Nat := 0xB6
def OPC_ASON1 : Nat := 0xB8
def OPC_ASOF1 : Nat := 0xB9
def OPC_ACON2 : Nat := 0xD0
def OPC_ACOF2 : Nat := 0xD1
def OPC_EVLRN : Nat := 0xD2
def OPC_ARON2 : Nat := 0xD4
def OPC_AROF2 : Nat := 0xD5
def OPC_ASON2 : Nat := 0xD8
def OPC_ASOF2 : Nat := 0xD9
def OPC_ACON3 : Nat := 0xF0
def OPC_ACOF3 : Nat := 0xF1
def OPC_ENRSP : Nat := 0xF2
def OPC_ARON3 : Nat := 0xF3
def OPC_AROF3 : Nat := 0xF4
def OPC_ASON3 : Nat := 0xF8
def OPC_ASOF3 : Nat := 0xF9
def OPC_RQNP : Nat := 0x10
def OPC_RQMN : Nat := 0x11
def OPC_SNN : Nat := 0x42
def OPC_RQNN : Nat := 0x50
def OPC_NNREL : Nat := 0x51
def OPC_NNACK : Nat := 0x52
def OPC_NNLRN : Nat := 0x53
def OPC_NNULN : Nat := 0x54
def OPC_NNCLR : Nat := 0x55
def OPC_NNEVN : Nat := 0x56
def OPC_NERD : Nat := 0x57
def OPC_RQEVN : Nat := 0x58
def OPC_WRACK : Nat := 0x59
def OPC_BOOT : Nat := 0x5C
def OPC_ENUM : Nat := 0x5D
def OPC_CMDERR : Nat := 0x6F
def OPC_EVNLF : Nat := 0x70
def OPC_NVRD : Nat := 0x71
def OPC_RQNPN : Nat := 0x73
def OPC_NUMEV : Nat := 0x74
def OPC_CANID : Nat := 0x75
def OPC_PARAMS : Nat := 0xEF
def OPC_NAME : Nat := 0xE2
def OPC_DTXC : Nat := 0xE9
def OPC_QNN : Nat := 0x0D
def OPC_RSTAT : Nat := 0x0C

/-- State of a CBUSbase object (the protected members of class CBUSbase that
process_single_message and checkCANenum read and write).  The user callback
pointers are modelled by booleans recording whether a handler is registered;
the callbacks themselves are external code. -/
structure CBUSbase where
  module_config : CBUSConfig
  _mparams : Nat → Nat
  _mname : Nat → Nat
  eventhandler : Bool
  eventhandlerex : Bool
  longMessageHandler : Bool
  enum_responses : Nat → Nat
  bModeChanging : Bool
  bCANenum : Bool
  bLearn : Bool
  timeOutTimer : Nat
  CANenumTime : Nat
  enumeration_required : Bool
  UI : Bool
  _msg : CANFrame
  _ledGrn : LEDState
  _ledYlw : LEDState

/-- Read one module parameter byte (`_mparams` is an `unsigned char` array). -/
def param (s : CBUSbase) (i : Nat) : Nat := s._mparams i % 256

/-- Extract CANID from a CAN frame header: `header & 0x7f`. -/
def getCANID (header : Nat) : Nat := header % 128

/-- Node number carried in a frame: `(data[1] << 8) + data[2]`. -/
def nnOf (msg : CANFrame) : Nat := msg.byte 1 * 256 + msg.byte 2

/-- Event number carried in a frame: `(data[3] << 8) + data[4]`. -/
def enOf (msg : CANFrame) : Nat := msg.byte 3 * 256 + msg.byte 4

/-- Send a WRACK (write acknowledge) message; the response is built in the
scratch member frame `_msg`. -/
def sendWRACK (s : CBUSbase) : CBUSbase × Sent :=
  let d := fupd (fupd (fupd s._msg.data 0 OPC_WRACK)
             1 (highByte s.module_config.nodeNum))
             2 (lowByte s.module_config.nodeNum)
  let m := { s._msg with len := 3, data := d }
  ({ s with _msg := m }, ⟨m, false, false⟩)

/-- Send a CMDERR (command error) message with the given error code; the
response is built in the scratch member frame `_msg`. -/
def sendCMDERR (s : CBUSbase) (cerrno : Nat) : CBUSbase × Sent :=
  let d := fupd (fupd (fupd (fupd s._msg.data 0 OPC_CMDERR)
             1 (highByte s.module_config.nodeNum))
             2 (lowByte s.module_config.nodeNum))
             3 cerrno
  let m := { s._msg with len := 4, data := d }
  ({ s with _msg := m }, ⟨m, false, false⟩)

/-- Set the CBUS LEDs to indicate the current mode (only when a UI is
configured). -/
def indicateMode (s : CBUSbase) (mode : Nat) : CBUSbase :=
  if s.UI then
    if mode = MODE_FLIM then { s with _ledYlw := LEDState.ledOn, _ledGrn := LEDState.ledOff }
    else if mode = MODE_SLIM then { s with _ledYlw := LEDState.ledOff, _ledGrn := LEDState.ledOn }
    else if mode = MODE_CHANGING then { s with _ledYlw := LEDState.ledBlink, _ledGrn := LEDState.ledOff }
    else s
  else s

/-- Initiate a CAN ID enumeration cycle: set the flags, record the start time,
zero the response bitmap and send the zero-length RTR probe (built in the
scratch frame `_msg`). -/
def CANenumeration (now : Nat) (s : CBUSbase) : CBUSbase × Sent :=
  let m := { s._msg with len := 0 }
  ({ s with bCANenum := true, CANenumTime := now,
            enum_responses := fun _ => 0, _msg := m },
   ⟨m, true, false⟩)

/-- Record one enumeration response: `bitWrite(enum_responses[p / 16], p % 8, 1)`. -/
def recordResponse (resp : Nat → Nat) (p : Nat) : Nat → Nat :=
  fupd resp (p / 16) (bitSetAt (resp (p / 16) % 256) (p % 8))

/-- Candidate test of the checkCANenum scan at byte `i`, bit `b`: skip the
(0,0) slot, skip bytes that are all ones, and select a clear bit. -/
def enumFreeAt (resp : Nat → Nat) (i b : Nat) : Bool :=
  !(i == 0 && b == 0) && !(resp i % 256 == 0xff) && (bitRead (resp i % 256) b == 0)

/-- Identifier selected by the checkCANenum scan: iterate bytes `i ∈ [0,16)`
and bits `b ∈ [0,8)` in order, return `i * 16 + b` for the first clear bit,
defaulting to 1 when every scanned bit is set. -/
def selectFreeId (resp : Nat → Nat) : Nat :=
  match scanFirst (fun k => enumFreeAt resp (k / 8) (k % 8)) 0 128 with
  | some k => k / 8 * 16 + k % 8
  | none => 1

/-- Check the 100 ms CAN enumeration cycle timer; when expired, stop
enumerating and commit the selected identifier to the ConfigStore. -/
def checkCANenum (now : Nat) (s : CBUSbase) : CBUSbase :=
  if s.bCANenum = true ∧ 100 ≤ now - s.CANenumTime then
    { s with bCANenum := false, CANenumTime := 0,
             module_config := s.module_config.setCANID (selectFreeId s.enum_responses) }
  else s

/-- Pulse the green (activity) LED when a UI is configured. -/
def pulseGrn (s : CBUSbase) : CBUSbase :=
  if s.UI then { s with _ledGrn := LEDState.ledPulse } else s

/-- CANID-clash detection: a data frame whose producer uses our CANID but a
different node number schedules an enumeration cycle. -/
def clashCheck (s : CBUSbase) (msg : CANFrame) : CBUSbase :=
  if 0 < msg.len ∧ getCANID msg.id = s.module_config.CANID ∧
      nnOf msg ≠ s.module_config.nodeNum then
    { s with enumeration_required := true }
  else s

/-- Accessory event dispatch: look the event up and call the registered user
callback (the callbacks are external; only the scratch-frame copy done by the
dispatcher before the call is modelled). -/
def processAccessoryEvent (s : CBUSbase) (nn en : Nat) (ison : Bool) : CBUSbase × List Sent :=
  let _index := s.module_config.findExistingEvent nn en
  let _ison := ison
  (s, [])

/-- OPC_RQNP handler: respond with PARAMS during mode transition. -/
def handleRQNP (s : CBUSbase) (msg : CANFrame) : CBUSbase × List Sent :=
  if s.bModeChanging = true then
    let d := fun j => if j = 0 then OPC_PARAMS
               else if 1 ≤ j ∧ j ≤ 7 then param s j else msg.data j
    let m := { msg with len := 8, data := d }
    (s, [⟨m, false, false⟩])
  else (s, [])

/-- OPC_RQNPN handler: answer a parameter read with PARAN, or CMDERR(9) when
the index is out of range. -/
def handleRQNPN (s : CBUSbase) (msg : CANFrame) (nn : Nat) : CBUSbase × List Sent :=
  if nn = s.module_config.nodeNum then
    let paran := msg.byte 3
    if paran ≤ param s 0 then
      let d := fupd (fupd (fupd msg.data 0 OPC_PARAN) 3 paran) 4 (param s paran)
      let m := { msg with len := 5, data := d }
      (s, [⟨m, false, false⟩])
    else
      let r := sendCMDERR s 9
      (r.1, [r.2])
  else (s, [])

/-- OPC_SNN handler: while in transition, commit the node number, acknowledge
with NNACK, enter FLiM, indicate the mode and start enumeration. -/
def handleSNN (now : Nat) (s : CBUSbase) (msg : CANFrame) (nn : Nat) : CBUSbase × List Sent :=
  if s.bModeChanging = true then
    let s1 := { s with module_config := s.module_config.setNodeNum nn }
    let m := { msg with len := 3, data := fupd msg.data 0 OPC_NNACK }
    let s2 := { s1 with bModeChanging := false }
    let s3 := { s2 with module_config := s2.module_config.setFLiM true }
    let s4 := indicateMode s3 (if s3.module_config.FLiM then MODE_FLIM else MODE_SLIM)
    let r := CANenumeration now s4
    (r.1, [⟨m, false, false⟩, r.2])
  else (s, [])

/-- OPC_RQNN handler: another module entered setup; abort our transition and
acknowledge. -/
def handleRQNN (s : CBUSbase) (msg : CANFrame) : CBUSbase × List Sent :=
  if s.bModeChanging = true then
    let s1 := { s with bModeChanging := false }
    let s2 := indicateMode s1 (if s1.module_config.FLiM then MODE_FLIM else MODE_SLIM)
    let d := fupd (fupd (fupd msg.data 0 OPC_NNACK)
               1 (highByte s2.module_config.nodeNum))
               2 (lowByte s2.module_config.nodeNum)
    let m := { msg with len := 3, data := d }
    (s2, [⟨m, false, false⟩])
  else (s, [])

/-- OPC_CANID handler: set our CANID when the value is in 1..99, else
CMDERR(7). -/
def handleCANID (s : CBUSbase) (msg : CANFrame) (nn : Nat) : CBUSbase × List Sent :=
  if nn = s.module_config.nodeNum then
    if msg.byte 3 < 1 ∨ 99 < msg.byte 3 then
      let r := sendCMDERR s 7
      (r.1, [r.2])
    else
      ({ s with module_config := s.module_config.setCANID (msg.byte 3) }, [])
  else (s, [])

/-- OPC_ENUM handler: start self-enumeration on request. -/
def handleENUM (now : Nat) (s : CBUSbase) (nn remoteCANID : Nat) : CBUSbase × List Sent :=
  if nn = s.module_config.nodeNum ∧ remoteCANID ≠ s.module_config.CANID ∧
      s.bCANenum = false then
    let r := CANenumeration now s
    (r.1, [r.2])
  else (s, [])

/-- OPC_NVRD handler: answer a node-variable read with NVANS, or CMDERR(10). -/
def handleNVRD (s : CBUSbase) (msg : CANFrame) (nn : Nat) : CBUSbase × List Sent :=
  if nn = s.module_config.nodeNum then
    let nvindex := msg.byte 3
    if s.module_config.EE_NUM_NVS < nvindex then
      let r := sendCMDERR s 10
      (r.1, [r.2])
    else
      let d := fupd (fupd msg.data 0 OPC_NVANS) 4 (s.module_config.readNV nvindex)
      let m := { msg with len := 5, data := d }
      (s, [⟨m, false, false⟩])
  else (s, [])

/-- OPC_NVSET handler: write a node variable and acknowledge, or CMDERR(10). -/
def handleNVSET (s : CBUSbase) (msg : CANFrame) (nn : Nat) : CBUSbase × List Sent :=
  if nn = s.module_config.nodeNum then
    if s.module_config.EE_NUM_NVS < msg.byte 3 then
      let r := sendCMDERR s 10
      (r.1, [r.2])
    else
      let r := sendWRACK { s with module_config := s.module_config.writeNV (msg.byte 3) (msg.byte 4) }
      (r.1, [r.2])
  else (s, [])

/-- OPC_NNLRN handler: enter learn mode and set bit 5 of parameter 8. -/
def handleNNLRN (s : CBUSbase) (nn : Nat) : CBUSbase × List Sent :=
  if nn = s.module_config.nodeNum then
    ({ s with bLearn := true, _mparams := fupd s._mparams 8 (bitSetAt (param s 8) 5) }, [])
  else (s, [])

/-- OPC_NNULN handler: leave learn mode and clear bit 5 of parameter 8
(`bitClear`: `x & ~(1 << 5)` on a byte is `x & 0xDF`). -/
def handleNNULN (s : CBUSbase) (nn : Nat) : CBUSbase × List Sent :=
  if nn = s.module_config.nodeNum then
    ({ s with bLearn := false, _mparams := fupd s._mparams 8 (param s 8 &&& 0xDF) }, [])
  else (s, [])

/-- OPC_EVULN handler: in learn mode, unlearn the event (nn,en): clear the
slot, refresh its hash, acknowledge; CMDERR(10) when not found. -/
def handleEVULN (s : CBUSbase) (nn en : Nat) : CBUSbase × List Sent :=
  if s.bLearn = true then
    let index := s.module_config.findExistingEvent nn en
    if index < s.module_config.EE_MAX_EVENTS then
      let cfg := (s.module_config.cleareventEEPROM index).updateEvHashEntry index
      let r := sendWRACK { s with module_config := cfg }
      (r.1, [r.2])
    else
      let r := sendCMDERR s 10
      (r.1, [r.2])
  else (s, [])

/-- OPC_RQEVN handler: answer with the number of stored events (NUMEV). -/
def handleRQEVN (s : CBUSbase) (msg : CANFrame) (nn : Nat) : CBUSbase × List Sent :=
  if nn = s.module_config.nodeNum then
    let d := fupd (fupd msg.data 0 OPC_NUMEV) 3 s.module_config.numEvents
    let m := { msg with len := 4, data := d }
    (s, [⟨m, false, false⟩])
  else (s, [])

/-- OPC_NERD handler: emit one ENRSP per occupied event-table slot, reusing
the inbound frame buffer across the loop. -/
def handleNERD (s : CBUSbase) (msg : CANFrame) (nn : Nat) : CBUSbase × List Sent :=
  if nn = s.module_config.nodeNum then
    let d0 := fupd (fupd (fupd msg.data 0 OPC_ENRSP)
                1 (highByte s.module_config.nodeNum))
                2 (lowByte s.module_config.nodeNum)
    let m0 := { msg with len := 8, data := d0 }
    let step := fun (acc : CANFrame × List Sent) (i : Nat) =>
      if s.module_config.getEvTableEntry i ≠ 0 then
        let hdr := s.module_config.readEvent i
        let d := fupd (fupd (fupd (fupd (fupd acc.1.data
                   3 (hdr 0)) 4 (hdr 1)) 5 (hdr 2)) 6 (hdr 3)) 7 i
        let m := { acc.1 with data := d }
        (m, acc.2 ++ [⟨m, false, false⟩])
      else acc
    let r := (List.range s.module_config.EE_MAX_EVENTS).foldl step (m0, [])
    (s, r.2)
  else (s, [])

/-- OPC_REVAL handler: answer an ev-variable read with NEVAL when the indexed
slot is occupied, else CMDERR(6). -/
def handleREVAL (s : CBUSbase) (msg : CANFrame) (nn : Nat) : CBUSbase × List Sent :=
  if nn = s.module_config.nodeNum then
    if s.module_config.getEvTableEntry (msg.byte 3) ≠ 0 then
      let d := fupd (fupd msg.data 0 OPC_NEVAL)
                 5 (s.module_config.getEventEVval (msg.byte 3) (msg.byte 4))
      let m := { msg with len := 6, data := d }
      (s, [⟨m, false, false⟩])
    else
      let r := sendCMDERR s 6
      (r.1, [r.2])
  else (s, [])

/-- OPC_NNCLR handler: in learn mode, clear every event slot, rebuild the
hash table and acknowledge. -/
def handleNNCLR (s : CBUSbase) (nn : Nat) : CBUSbase × List Sent :=
  if s.bLearn = true ∧ nn = s.module_config.nodeNum then
    let cfg := (List.range s.module_config.EE_MAX_EVENTS).foldl
        (fun c e => c.cleareventEEPROM e) s.module_config
    let r := sendWRACK { s with module_config := cfg.clearEvHashTable }
    (r.1, [r.2])
  else (s, [])

/-- OPC_NNEVN handler: answer with the number of free event-table slots
(EVNLF), counted through the hash table. -/
def handleNNEVN (s : CBUSbase) (msg : CANFrame) (nn : Nat) : CBUSbase × List Sent :=
  if s.module_config.nodeNum = nn then
    let free_slots := (List.range s.module_config.EE_MAX_EVENTS).countP
        (fun i => s.module_config.getEvTableEntry i == 0)
    let d := fupd (fupd msg.data 0 OPC_EVNLF) 3 free_slots
    let m := { msg with len := 4, data := d }
    (s, [⟨m, false, false⟩])
  else (s, [])

/-- OPC_QNN handler: advertise presence with PNN when a node number is set. -/
def handleQNN (s : CBUSbase) (msg : CANFrame) : CBUSbase × List Sent :=
  if 0 < s.module_config.nodeNum then
    let d := fupd (fupd (fupd (fupd (fupd (fupd msg.data
               0 OPC_PNN)
               1 (highByte s.module_config.nodeNum))
               2 (lowByte s.module_config.nodeNum))
               3 (param s 1)) 4 (param s 3)) 5 (param s 8)
    let m := { msg with len := 6, data := d }
    (s, [⟨m, false, false⟩])
  else (s, [])

/-- OPC_RQMN handler: emit the 7-byte module name during transition. -/
def handleRQMN (s : CBUSbase) (msg : CANFrame) : CBUSbase × List Sent :=
  if s.bModeChanging = true then
    let d := fun j => if j = 0 then OPC_NAME
               else if 1 ≤ j ∧ j ≤ 7 then s._mname (j - 1) % 256 else msg.data j
    let m := { msg with len := 8, data := d }
    (s, [⟨m, false, false⟩])
  else (s, [])

/-- OPC_EVLRN handler: in learn mode, locate or allocate a slot for (nn,en);
on the first two ev-variables also write the header and refresh the hash;
always persist the ev-variable and acknowledge; CMDERR(10) when storage is
exhausted. -/
def handleEVLRN (s : CBUSbase) (msg : CANFrame) (nn en : Nat) : CBUSbase × List Sent :=
  let evindex := msg.byte 5
  let evval := msg.byte 6
  if s.bLearn = true then
    let i0 := s.module_config.findExistingEvent nn en
    let index := if s.module_config.EE_MAX_EVENTS ≤ i0 then s.module_config.findEventSpace else i0
    if index < s.module_config.EE_MAX_EVENTS then
      let cfg1 := if evindex < 2 then
          (s.module_config.writeEvent index nn en).updateEvHashEntry index
        else s.module_config
      let cfg2 := cfg1.writeEventEV index evindex evval
      let r := sendWRACK { s with module_config := cfg2 }
      (r.1, [r.2])
    else
      let r := sendCMDERR s 10
      (r.1, [r.2])
  else (s, [])

/-- Opcode dispatch of process_single_message: the switch statement. -/
def dispatchOpc (now : Nat) (s : CBUSbase) (msg : CANFrame)
    (opc nn en remoteCANID : Nat) : CBUSbase × List Sent :=
  if opc = OPC_ACON ∨ opc = OPC_ACON1 ∨ opc = OPC_ACON2 ∨ opc = OPC_ACON3 ∨
     opc = OPC_ACOF ∨ opc = OPC_ACOF1 ∨ opc = OPC_ACOF2 ∨ opc = OPC_ACOF3 ∨
     opc = OPC_ARON ∨ opc = OPC_AROF then
    if s.eventhandler = true ∨ s.eventhandlerex = true then
      processAccessoryEvent { s with _msg := msg } nn en (opc % 2 = 0)
    else (s, [])
  else if opc = OPC_ASON ∨ opc = OPC_ASON1 ∨ opc = OPC_ASON2 ∨ opc = OPC_ASON3 ∨
          opc = OPC_ASOF ∨ opc = OPC_ASOF1 ∨ opc = OPC_ASOF2 ∨ opc = OPC_ASOF3 then
    if s.eventhandler = true ∨ s.eventhandlerex = true then
      processAccessoryEvent { s with _msg := msg } 0 en (opc % 2 = 0)
    else (s, [])
  else if opc = OPC_RQNP then handleRQNP s msg
  else if opc = OPC_RQNPN then handleRQNPN s msg nn
  else if opc = OPC_SNN then handleSNN now s msg nn
  else if opc = OPC_RQNN then handleRQNN s msg
  else if opc = OPC_CANID then handleCANID s msg nn
  else if opc = OPC_ENUM then handleENUM now s nn remoteCANID
  else if opc = OPC_NVRD then handleNVRD s msg nn
  else if opc = OPC_NVSET then handleNVSET s msg nn
  else if opc = OPC_NNLRN then handleNNLRN s nn
  else if opc = OPC_EVULN then handleEVULN s nn en
  else if opc = OPC_NNULN then handleNNULN s nn
  else if opc = OPC_RQEVN then handleRQEVN s msg nn
  else if opc = OPC_NERD then handleNERD s msg nn
  else if opc = OPC_REVAL then handleREVAL s msg nn
  else if opc = OPC_NNCLR then handleNNCLR s nn
  else if opc = OPC_NNEVN then handleNNEVN s msg nn
  else if opc = OPC_QNN then handleQNN s msg
  else if opc = OPC_RQMN then handleRQMN s msg
  else if opc = OPC_EVLRN then handleEVLRN s msg nn en
  else (s, [])

/-- Per-frame message processing (CBUSbase::process_single_message): pulse the
activity LED, answer enumeration probes, detect CANID clashes, record
enumeration responses, then dispatch data frames on their opcode.  The frame
handed in is the dispatcher's working copy; response frames the bus driver
receives are collected in the returned list. -/
def process_single_message (now : Nat) (s0 : CBUSbase) (msg : CANFrame) :
    CBUSbase × List Sent :=
  let opc := msg.byte 0
  let nn := nnOf msg
  let en := enOf msg
  let remoteCANID := getCANID msg.id
  let s := pulseGrn s0
  if msg.rtr = true ∧ msg.len = 0 then
    (s, [⟨{ msg with len := 0 }, false, false⟩])
  else
    let s := clashCheck s msg
    if msg.ext = true then (s, [])
    else if s.bCANenum = true ∧ msg.len = 0 then
      (if 0 < remoteCANID then
        { s with enum_responses := recordResponse s.enum_responses remoteCANID }
       else s, [])
    else if 0 < msg.len then
      dispatchOpc now s msg opc nn en remoteCANID
    else
      (s, [])

/-- Spec-side definition for comparison (clearly named, from the spec's
words): the lowest identifier in 1..127 that is not in use by a recorded
peer. -/
def spec_lowest_free_id (used : List Nat) : Nat :=
  (scanFirst (fun q => !(q == 0) && !(used.contains q)) 0 128).getD 0

/-- A circular buffer (class circular_buffer2 of CBUS.h); items abstracted to
their payload value, insert times kept alongside. -/
structure circular_buffer2 where
  _full : Bool
  _head : Nat
  _tail : Nat
  _capacity : Nat
  _size : Nat
  _hwm : Nat
  _puts : Nat
  _gets : Nat
  _overflows : Nat
  _buffer : Nat → Nat
  _itime : Nat → Nat

namespace circular_buffer2

/-- Constructor: all counters zero, empty buffer of the given capacity. -/
def init (num_items : Nat) : circular_buffer2 :=
  { _full := false, _head := 0, _tail := 0, _capacity := num_items,
    _size := 0, _hwm := 0, _puts := 0, _gets := 0, _overflows := 0,
    _buffer := fun _ => 0, _itime := fun _ => 0 }

/-- Recalculate the number of items in the buffer (method size()). -/
def sizeCalc (b : circular_buffer2) : Nat :=
  if b._full then b._capacity
  else if b._tail ≤ b._head then b._head - b._tail
  else b._capacity + b._head - b._tail

/-- Store an item, overwriting the oldest when full (method put()); `now` is
the micros() timestamp recorded with the item. -/
def put (now item : Nat) (b : circular_buffer2) : circular_buffer2 :=
  let buf := fupd b._buffer b._head item
  let it := fupd b._itime b._head now
  let tl := if b._full then (b._tail + 1) % b._capacity else b._tail
  let ovf := if b._full then (b._overflows + 1) % UINT_MOD else b._overflows
  let hd := (b._head + 1) % b._capacity
  let b0 := { b with _buffer := buf, _itime := it, _tail := tl }
  let b1 := { b0 with _overflows := ovf, _head := hd, _full := hd == tl }
  let sz := sizeCalc b1
  let hw := if b._hwm < sz then sz else b._hwm
  { b1 with _size := sz, _hwm := hw, _puts := (b._puts + 1) % UINT_MOD }

/-- Retrieve the next item (method get()); returns none (a null pointer) when
the buffer is empty. -/
def get (b : circular_buffer2) : circular_buffer2 × Option Nat :=
  if 0 < b._size then
    let item := b._buffer b._tail
    let b1 := { b with _full := false, _tail := (b._tail + 1) % b._capacity }
    ({ b1 with _size := sizeCalc b1, _gets := (b._gets + 1) % UINT_MOD }, some item)
  else (b, none)

/-- Clear all items (method clear()): reset the geometry, keep the meters. -/
def clear (b : circular_buffer2) : circular_buffer2 :=
  { b with _head := 0, _tail := 0, _full := false, _size := 0 }

/-- If the buffer has one or more stored items (method available()). -/
def available (b : circular_buffer2) : Bool := 0 < b._size

/-- Empty indicator (method empty()). -/
def isEmpty (b : circular_buffer2) : Bool := !b._full && (b._head == b._tail)

/-- Free slots (method free_slots()). -/
def free_slots (b : circular_buffer2) : Nat := b._capacity - b._size

end circular_buffer2

/-- One operation on the circular buffer, for reasoning about arbitrary
operation sequences. -/
inductive BufOp
  | bput (t v : Nat)
  | bget

/-- Apply one buffer operation. -/
def stepBuf (b : circular_buffer2) : BufOp → circular_buffer2
  | BufOp.bput t v => circular_buffer2.put t v b
  | BufOp.bget => (circular_buffer2.get b).1

/-- Run a sequence of operations on a freshly constructed buffer. -/
def runBuf (cap : Nat) (ops : List BufOp) : circular_buffer2 :=
  ops.foldl stepBuf (circular_buffer2.init cap)

/-- Sizes observed after each operation of a run. -/
def traceSizes (b : circular_buffer2) : List BufOp → List Nat
  | [] => []
  | op :: rest =>
      let b1 := stepBuf b op
      b1._size :: traceSizes b1 rest

/-- Concrete ConfigStore contents used by witnesses and counterexamples. -/
def testConfig : CBUSConfig :=
  { nodeNum := 260, CANID := 5, FLiM := true,
    EE_MAX_EVENTS := 4, EE_NUM_EVS := 3, EE_NUM_NVS := 2,
    events := fun _ => none, evHash := fun _ => 0,
    evVars := fun _ _ => 0, nvs := fun _ => 0 }

/-- A zero-length standard frame from the peer with the given identifier. -/
def zeroFrame (idv : Nat) : CANFrame :=
  { id := idv, ext := false, rtr := false, len := 0, data := fun _ => 0 }

/-- A standard data frame holding the given payload bytes. -/
def dataFrame (bytes : List Nat) : CANFrame :=
  { id := 0, ext := false, rtr := false, len := bytes.length,
    data := fun i => bytes.getD i 0 }

/-- Concrete dispatcher state used by witnesses and counterexamples. -/
def testState : CBUSbase :=
  { module_config := testConfig,
    _mparams := fun i => 20 - i, _mname := fun _ => 32,
    eventhandler := false, eventhandlerex := false, longMessageHandler := false,
    enum_responses := fun _ => 0,
    bModeChanging := false, bCANenum := false, bLearn := false,
    timeOutTimer := 0, CANenumTime := 0, enumeration_required := false,
    UI := true, _msg := zeroFrame 0,
    _ledGrn := LEDState.ledOff, _ledYlw := LEDState.ledOn }

/-- Concrete dispatcher state already placed in learn mode. -/
def learnState : CBUSbase := { testState with bLearn := true }

/-- Run one full enumeration window from `testState`: start the cycle, handle
one zero-length standard frame per recorded peer, then let the window
expire. -/
def enumRun (peers : List Nat) : CBUSbase :=
  checkCANenum 100
    ((peers.map zeroFrame).foldl
      (fun st f => (process_single_message 0 st f).1)
      (CANenumeration 0 testState).1)

/-- Invariant of the circular buffer maintained by every put/get sequence:
consistent geometry, full flag tracking a full buffer, hwm dominating the
size, and the metering identity in machine (wrap-around) arithmetic. -/
def BufInv (c : Nat) (b : circular_buffer2) : Prop :=
  b._capacity = c ∧ b._head < c ∧ b._tail < c ∧ b._size ≤ c ∧
  (b._full = true ↔ b._size = c) ∧ b._size = b.sizeCalc ∧
  (b._full = true → b._head = b._tail) ∧
  b._size ≤ b._hwm ∧ b._puts < UINT_MOD ∧ b._gets < UINT_MOD ∧
  b._overflows < UINT_MOD ∧
  b._puts = (b._gets + b._size + b._overflows) % UINT_MOD

/-! Helper lemmas. -/

attribute [simp] OPC_ACON OPC_ACOF OPC_ARON OPC_AROF OPC_EVULN OPC_NVSET OPC_NVANS
attribute [simp] OPC_ASON OPC_ASOF OPC_PARAN OPC_REVAL OPC_ACON1 OPC_ACOF1 OPC_ARON1
attribute [simp] OPC_AROF1 OPC_NEVAL OPC_PNN OPC_ASON1 OPC_ASOF1 OPC_ACON2 OPC_ACOF2
attribute [simp] OPC_EVLRN OPC_ARON2 OPC_AROF2 OPC_ASON2 OPC_ASOF2 OPC_ACON3 OPC_ACOF3
attribute [simp] OPC_ENRSP OPC_ARON3 OPC_AROF3 OPC_ASON3 OPC_ASOF3 OPC_RQNP OPC_RQMN
attribute [simp] OPC_SNN OPC_RQNN OPC_NNREL OPC_NNACK OPC_NNLRN OPC_NNULN OPC_NNCLR
attribute [simp] OPC_NNEVN OPC_NERD OPC_RQEVN OPC_WRACK OPC_BOOT OPC_ENUM OPC_CMDERR
attribute [simp] OPC_EVNLF OPC_NVRD OPC_RQNPN OPC_NUMEV OPC_CANID OPC_PARAMS OPC_NAME
attribute [simp] OPC_DTXC OPC_QNN OPC_RSTAT MODE_SLIM MODE_FLIM MODE_CHANGING

@[simp] theorem fupd_apply {α : Type} (f : Nat → α) (i v j) :
    fupd f i v j = if j = i then v else f j := rfl

theorem fupd_same {α : Type} (f : Nat → α) (i v) : fupd f i v i = v := by
  simp [fupd]

theorem fupd_other {α : Type} (f : Nat → α) (i v j) (h : j ≠ i) : fupd f i v j = f j := by
  simp [fupd, h]

@[simp] theorem fupd2_apply (f : Nat → Nat → Nat) (i k v j) :
    fupd2 f i k v j = if j = i then fupd (f j) k v else f j := rfl

theorem scanFirst_some_spec (p : Nat → Bool) :
    ∀ count start i, scanFirst p start count = some i →
      p i = true ∧ start ≤ i ∧ i < start + count ∧
        ∀ j, start ≤ j → j < i → p j = false := by
  intro count
  induction count with
  | zero => intro start i h; simp [scanFirst] at h
  | succ k ih =>
      intro start i h
      by_cases hp : p start = true
      · simp [scanFirst, hp] at h
        subst h
        exact ⟨hp, Nat.le_refl _, by omega,
          fun j h1 h2 => absurd (Nat.lt_of_le_of_lt h1 h2) (Nat.lt_irrefl _)⟩
      · simp [scanFirst, hp] at h
        obtain ⟨h1, h2, h3, h4⟩ := ih (start + 1) i h
        refine ⟨h1, by omega, by omega, fun j hj1 hj2 => ?_⟩
        rcases Nat.eq_or_lt_of_le hj1 with he | hl
        · rw [he] at hp; exact Bool.eq_false_iff.mpr hp
        · exact h4 j hl hj2

theorem scanFirst_none_spec (p : Nat → Bool) :
    ∀ count start, scanFirst p start count = none →
      ∀ j, start ≤ j → j < start + count → p j = false := by
  intro count
  induction count with
  | zero => intro start _ j h1 h2; omega
  | succ k ih =>
      intro start h j h1 h2
      by_cases hp : p start = true
      · simp [scanFirst, hp] at h
      · simp [scanFirst, hp] at h
        rcases Nat.eq_or_lt_of_le h1 with he | hl
        · rw [he] at hp; exact Bool.eq_false_iff.mpr hp
        · exact ih (start + 1) h j hl (by omega)

theorem scanFirst_eq_some (p : Nat → Bool) :
    ∀ count start i, start ≤ i → i < start + count → p i = true →
      (∀ j, start ≤ j → j < i → p j = false) → scanFirst p start count = some i := by
  intro count
  induction count with
  | zero => intro start i h1 h2; omega
  | succ k ih =>
      intro start i h1 h2 h3 h4
      rcases Nat.eq_or_lt_of_le h1 with he | hl
      · subst he; simp [scanFirst, h3]
      · have hps : p start = false := h4 start (Nat.le_refl _) hl
        simp [scanFirst, hps]
        exact ih (start + 1) i hl (by omega) h3 (fun j hj1 hj2 => h4 j (by omega) hj2)

theorem bitRead_eq_one_iff (x n : Nat) : bitRead x n = 1 ↔ x.testBit n = true := by
  rw [Nat.testBit_to_div_mod]
  simp [bitRead]

theorem bitRead_eq_zero_iff (x n : Nat) : bitRead x n = 0 ↔ x.testBit n = false := by
  have h2 : x / 2 ^ n % 2 < 2 := Nat.mod_lt _ (by omega)
  rw [Nat.testBit_to_div_mod]
  simp only [bitRead, decide_eq_false_iff_not]
  omega

theorem mod256_testBit (x b : Nat) (hb : b < 8) : (x % 256).testBit b = x.testBit b := by
  have h : (256 : Nat) = 2 ^ 8 := by norm_num
  rw [h, Nat.testBit_mod_two_pow]
  simp [hb]

/-- Setting bit `n` leaves bit `n` set. -/
theorem bitRead_bitSetAt_self (x n : Nat) : bitRead (bitSetAt x n) n = 1 := by
  rw [bitRead_eq_one_iff, bitSetAt, Nat.testBit_or, Nat.testBit_two_pow_self]
  simp

/-- Setting a bit never clears another bit. -/
theorem bitRead_bitSetAt_mono (x m n : Nat) (h : bitRead x n = 1) :
    bitRead (bitSetAt x m) n = 1 := by
  rw [bitRead_eq_one_iff] at h ⊢
  rw [bitSetAt, Nat.testBit_or, h]
  simp

/-- Recording identifier `p` sets its bit (byte `p / 16`, bit `p % 8`). -/
theorem recordResponse_sets (r : Nat → Nat) (p : Nat) :
    bitRead ((recordResponse r p) (p / 16) % 256) (p % 8) = 1 := by
  have hb : p % 8 < 8 := Nat.mod_lt _ (by omega)
  rw [bitRead_eq_one_iff, recordResponse, fupd_same, mod256_testBit _ _ hb,
    bitSetAt, Nat.testBit_or, Nat.testBit_two_pow_self]
  simp

/-- Recording any identifier preserves already-set bits. -/
theorem recordResponse_keeps (r : Nat → Nat) (q p : Nat)
    (h : bitRead (r (p / 16) % 256) (p % 8) = 1) :
    bitRead ((recordResponse r q) (p / 16) % 256) (p % 8) = 1 := by
  have hb : p % 8 < 8 := Nat.mod_lt _ (by omega)
  rw [bitRead_eq_one_iff] at h ⊢
  rw [recordResponse]
  by_cases hq : p / 16 = q / 16
  · rw [show fupd r (q / 16) (bitSetAt (r (q / 16) % 256) (q % 8)) (p / 16)
        = bitSetAt (r (q / 16) % 256) (q % 8) from by rw [hq, fupd_same]]
    rw [mod256_testBit _ _ hb, bitSetAt, Nat.testBit_or]
    rw [hq] at h
    simp [h]
  · rw [fupd_other _ _ _ _ hq]
    exact h

@[simp] theorem pulseGrn_module_config (s : CBUSbase) :
    (pulseGrn s).module_config = s.module_config := by
  unfold pulseGrn; split <;> rfl

@[simp] theorem pulseGrn_mparams (s : CBUSbase) : (pulseGrn s)._mparams = s._mparams := by
  unfold pulseGrn; split <;> rfl

@[simp] theorem pulseGrn_enum_responses (s : CBUSbase) :
    (pulseGrn s).enum_responses = s.enum_responses := by
  unfold pulseGrn; split <;> rfl

@[simp] theorem pulseGrn_bModeChanging (s : CBUSbase) :
    (pulseGrn s).bModeChanging = s.bModeChanging := by
  unfold pulseGrn; split <;> rfl

@[simp] theorem pulseGrn_bCANenum (s : CBUSbase) : (pulseGrn s).bCANenum = s.bCANenum := by
  unfold pulseGrn; split <;> rfl

@[simp] theorem pulseGrn_bLearn (s : CBUSbase) : (pulseGrn s).bLearn = s.bLearn := by
  unfold pulseGrn; split <;> rfl

@[simp] theorem pulseGrn_CANenumTime (s : CBUSbase) :
    (pulseGrn s).CANenumTime = s.CANenumTime := by
  unfold pulseGrn; split <;> rfl

@[simp] theorem pulseGrn_enumeration_required (s : CBUSbase) :
    (pulseGrn s).enumeration_required = s.enumeration_required := by
  unfold pulseGrn; split <;> rfl

@[simp] theorem pulseGrn_UI (s : CBUSbase) : (pulseGrn s).UI = s.UI := by
  unfold pulseGrn; split <;> rfl

@[simp] theorem pulseGrn_msg (s : CBUSbase) : (pulseGrn s)._msg = s._msg := by
  unfold pulseGrn; split <;> rfl

@[simp] theorem pulseGrn_ledYlw (s : CBUSbase) : (pulseGrn s)._ledYlw = s._ledYlw := by
  unfold pulseGrn; split <;> rfl

@[simp] theorem pulseGrn_eventhandler (s : CBUSbase) :
    (pulseGrn s).eventhandler = s.eventhandler := by
  unfold pulseGrn; split <;> rfl

@[simp] theorem pulseGrn_eventhandlerex (s : CBUSbase) :
    (pulseGrn s).eventhandlerex = s.eventhandlerex := by
  unfold pulseGrn; split <;> rfl

@[simp] theorem clashCheck_module_config (s : CBUSbase) (m : CANFrame) :
    (clashCheck s m).module_config = s.module_config := by
  unfold clashCheck; split <;> rfl

@[simp] theorem clashCheck_mparams (s : CBUSbase) (m : CANFrame) :
    (clashCheck s m)._mparams = s._mparams := by
  unfold clashCheck; split <;> rfl

@[simp] theorem clashCheck_enum_responses (s : CBUSbase) (m : CANFrame) :
    (clashCheck s m).enum_responses = s.enum_responses := by
  unfold clashCheck; split <;> rfl

@[simp] theorem clashCheck_bModeChanging (s : CBUSbase) (m : CANFrame) :
    (clashCheck s m).bModeChanging = s.bModeChanging := by
  unfold clashCheck; split <;> rfl

@[simp] theorem clashCheck_bCANenum (s : CBUSbase) (m : CANFrame) :
    (clashCheck s m).bCANenum = s.bCANenum := by
  unfold clashCheck; split <;> rfl

@[simp] theorem clashCheck_bLearn (s : CBUSbase) (m : CANFrame) :
    (clashCheck s m).bLearn = s.bLearn := by
  unfold clashCheck; split <;> rfl

@[simp] theorem clashCheck_CANenumTime (s : CBUSbase) (m : CANFrame) :
    (clashCheck s m).CANenumTime = s.CANenumTime := by
  unfold clashCheck; split <;> rfl

@[simp] theorem clashCheck_UI (s : CBUSbase) (m : CANFrame) :
    (clashCheck s m).UI = s.UI := by
  unfold clashCheck; split <;> rfl

@[simp] theorem clashCheck_msg (s : CBUSbase) (m : CANFrame) :
    (clashCheck s m)._msg = s._msg := by
  unfold clashCheck; split <;> rfl

@[simp] theorem clashCheck_ledGrn (s : CBUSbase) (m : CANFrame) :
    (clashCheck s m)._ledGrn = s._ledGrn := by
  unfold clashCheck; split <;> rfl

@[simp] theorem clashCheck_ledYlw (s : CBUSbase) (m : CANFrame) :
    (clashCheck s m)._ledYlw = s._ledYlw := by
  unfold clashCheck; split <;> rfl

@[simp] theorem clashCheck_eventhandler (s : CBUSbase) (m : CANFrame) :
    (clashCheck s m).eventhandler = s.eventhandler := by
  unfold clashCheck; split <;> rfl

@[simp] theorem clashCheck_eventhandlerex (s : CBUSbase) (m : CANFrame) :
    (clashCheck s m).eventhandlerex = s.eventhandlerex := by
  unfold clashCheck; split <;> rfl

/-- Reduction of the dispatcher on a standard data frame: a frame with a
payload that is not extended reaches the opcode switch. -/
theorem psm_data (now : Nat) (s : CBUSbase) (msg : CANFrame)
    (hlen : 0 < msg.len) (hext : msg.ext = false) :
    process_single_message now s msg =
      dispatchOpc now (clashCheck (pulseGrn s) msg) msg (msg.byte 0)
        (nnOf msg) (enOf msg) (getCANID msg.id) := by
  have h0 : msg.len ≠ 0 := by omega
  simp [process_single_message, hext, h0, hlen]

/-- Reduction of the dispatcher on a zero-length standard frame received
while enumerating: the peer identifier is recorded (when non-zero) and
nothing is sent. -/
theorem psm_zero (now : Nat) (s : CBUSbase) (msg : CANFrame)
    (hb : s.bCANenum = true) (hlen : msg.len = 0) (hrtr : msg.rtr = false)
    (hext : msg.ext = false) :
    process_single_message now s msg =
      (if 0 < getCANID msg.id then
        { pulseGrn s with enum_responses := recordResponse s.enum_responses (getCANID msg.id) }
       else pulseGrn s, []) := by
  have hcl : clashCheck (pulseGrn s) msg = pulseGrn s := by
    unfold clashCheck
    rw [if_neg]
    simp [hlen]
  simp [process_single_message, hlen, hrtr, hext, hcl, hb]

/-- The checkCANenum scan never selects an identifier whose bit is set in the
bitmap, provided byte 8 of the bitmap is still clear (it always is: recorded
identifiers are below 128, so only bytes 0..7 are ever written). -/
theorem selectFreeId_ne (resp : Nat → Nat) (p : Nat)
    (hbit : bitRead (resp (p / 16) % 256) (p % 8) = 1)
    (hhigh : resp 8 = 0) :
    selectFreeId resp ≠ p := by
  unfold selectFreeId
  cases hscan : scanFirst (fun k => enumFreeAt resp (k / 8) (k % 8)) 0 128 with
  | none =>
      have h64 := scanFirst_none_spec _ _ _ hscan 64 (by omega) (by omega)
      have : enumFreeAt resp 8 0 = false := by
        have h8 : (64 : Nat) / 8 = 8 := by norm_num
        have h0 : (64 : Nat) % 8 = 0 := by norm_num
        rw [h8, h0] at h64
        exact h64
      rw [enumFreeAt, hhigh] at this
      simp [bitRead] at this
  | some k =>
      obtain ⟨hk, _, hk128, _⟩ := scanFirst_some_spec _ _ _ _ hscan
      intro hEq
      have hEq2 : k / 8 * 16 + k % 8 = p := hEq
      have h1 : p / 16 = k / 8 := by omega
      have h2 : p % 8 = k % 8 := by omega
      rw [enumFreeAt] at hk
      simp only [Bool.and_eq_true, Bool.not_eq_true', beq_eq_false_iff_ne,
        beq_iff_eq] at hk
      rw [h1, h2] at hbit
      omega

/-- Componentwise effect of handling a zero-length standard frame while
enumerating. -/
theorem psm_zero_fields (now : Nat) (s : CBUSbase) (msg : CANFrame)
    (hb : s.bCANenum = true) (hlen : msg.len = 0) (hrtr : msg.rtr = false)
    (hext : msg.ext = false) :
    (process_single_message now s msg).1.bCANenum = s.bCANenum ∧
    (process_single_message now s msg).1.CANenumTime = s.CANenumTime ∧
    (process_single_message now s msg).1.enum_responses =
      (if 0 < getCANID msg.id then recordResponse s.enum_responses (getCANID msg.id)
       else s.enum_responses) ∧
    (process_single_message now s msg).2 = [] := by
  rw [psm_zero now s msg hb hlen hrtr hext]
  by_cases hc : 0 < getCANID msg.id <;> simp [hc]

/-- Folding the per-frame enumeration recording over a list of zero-length
standard frames: the state keeps enumerating, the cycle start time is
unchanged, and the bitmap is the fold of the per-frame recording. -/
theorem fold_enum (tmid : Nat) (frames : List CANFrame) :
    ∀ s : CBUSbase, s.bCANenum = true →
      (∀ f ∈ frames, f.len = 0 ∧ f.rtr = false ∧ f.ext = false) →
      (frames.foldl (fun st f => (process_single_message tmid st f).1) s).bCANenum = true ∧
      (frames.foldl (fun st f => (process_single_message tmid st f).1) s).CANenumTime
        = s.CANenumTime ∧
      (frames.foldl (fun st f => (process_single_message tmid st f).1) s).enum_responses
        = frames.foldl
            (fun r f => if 0 < getCANID f.id then recordResponse r (getCANID f.id) else r)
            s.enum_responses := by
  induction frames with
  | nil => intro s hb _; exact ⟨hb, rfl, rfl⟩
  | cons f rest ih =>
      intro s hb hfr
      obtain ⟨hl, hr, he⟩ := hfr f (List.mem_cons_self f rest)
      obtain ⟨hbc, hct, her, _⟩ := psm_zero_fields tmid s f hb hl hr he
      have hrest : ∀ g ∈ rest, g.len = 0 ∧ g.rtr = false ∧ g.ext = false :=
        fun g hg => hfr g (List.mem_cons_of_mem f hg)
      obtain ⟨ha, hb2, hc2⟩ := ih ((process_single_message tmid s f).1)
        (by rw [hbc, hb]) hrest
      simp only [List.foldl_cons]
      refine ⟨ha, ?_, ?_⟩
      · rw [hb2, hct]
      · rw [hc2, her]

/-- Bits once recorded stay recorded across the fold. -/
theorem fold_record_keeps (frames : List CANFrame) :
    ∀ (r : Nat → Nat) (p : Nat), bitRead (r (p / 16) % 256) (p % 8) = 1 →
      bitRead ((frames.foldl
          (fun r f => if 0 < getCANID f.id then recordResponse r (getCANID f.id) else r) r)
        (p / 16) % 256) (p % 8) = 1 := by
  induction frames with
  | nil => intro r p h; exact h
  | cons f rest ih =>
      intro r p h
      simp only [List.foldl_cons]
      apply ih
      by_cases hc : 0 < getCANID f.id
      · rw [if_pos hc]; exact recordResponse_keeps _ _ _ h
      · rw [if_neg hc]; exact h

/-- Every recorded identifier has its bit set in the final bitmap. -/
theorem fold_record_mem (frames : List CANFrame) :
    ∀ (r : Nat → Nat) (p : Nat), p ∈ frames.map (fun f => getCANID f.id) → 1 ≤ p →
      bitRead ((frames.foldl
          (fun r f => if 0 < getCANID f.id then recordResponse r (getCANID f.id) else r) r)
        (p / 16) % 256) (p % 8) = 1 := by
  induction frames with
  | nil => intro r p h; simp at h
  | cons f rest ih =>
      intro r p hmem hp
      simp only [List.map_cons, List.mem_cons] at hmem
      simp only [List.foldl_cons]
      rcases hmem with hhd | htl
      · subst hhd
        rw [if_pos (by omega)]
        exact fold_record_keeps rest _ _ (recordResponse_sets r _)
      · exact ih _ p htl hp

/-- Bytes 8..15 of the bitmap are never written by the fold: every recorded
identifier is `id % 128 < 128`, so only bytes 0..7 are touched. -/
theorem fold_record_high (frames : List CANFrame) :
    ∀ (r : Nat → Nat) (j : Nat), 8 ≤ j →
      (frames.foldl
          (fun r f => if 0 < getCANID f.id then recordResponse r (getCANID f.id) else r) r) j
        = r j := by
  induction frames with
  | nil => intro r j _; rfl
  | cons f rest ih =>
      intro r j hj
      simp only [List.foldl_cons]
      rw [ih _ j hj]
      by_cases hc : 0 < getCANID f.id
      · rw [if_pos hc, recordResponse]
        have hlt : getCANID f.id < 128 := Nat.mod_lt _ (by omega)
        exact fupd_other _ _ _ _ (by omega)
      · rw [if_neg hc]

/-- C1: for every peer identifier p in 1..127, if p is recorded in the
EnumResponses bitmap during an enumeration window (a zero-length standard
frame whose CAN identifier has low 7 bits equal to p is handled while
enumeration is in progress), then the identifier that checkCANenum commits
to the ConfigStore at the end of the window is not p (and enumeration
stops). -/
theorem C1_enum_never_selects_recorded_id
    (s0 s1 s2 : CBUSbase) (t0 t1 t2 : Nat) (frames : List CANFrame) (p : Nat)
    (hs1 : s1 = (CANenumeration t0 s0).1)
    (hs2 : s2 = frames.foldl (fun st f => (process_single_message t1 st f).1) s1)
    (hfr : ∀ f ∈ frames, f.len = 0 ∧ f.rtr = false ∧ f.ext = false)
    (hp : p ∈ frames.map (fun f => getCANID f.id))
    (hp1 : 1 ≤ p) (_hp2 : p ≤ 127)
    (ht : t0 + 100 ≤ t2) :
    (checkCANenum t2 s2).module_config.CANID ≠ p ∧
    (checkCANenum t2 s2).bCANenum = false := by
  subst hs1 hs2
  obtain ⟨hb, hct, her⟩ := fold_enum t1 frames (CANenumeration t0 s0).1
    (by simp [CANenumeration]) hfr
  have hct0 : (CANenumeration t0 s0).1.CANenumTime = t0 := by simp [CANenumeration]
  have her0 : (CANenumeration t0 s0).1.enum_responses = fun _ => 0 := by
    simp [CANenumeration]
  rw [her0] at her
  unfold checkCANenum
  rw [if_pos ⟨hb, by rw [hct, hct0]; omega⟩]
  refine ⟨?_, rfl⟩
  show (CBUSConfig.setCANID _ _).CANID ≠ p
  rw [CBUSConfig.setCANID]
  show selectFreeId _ ≠ p
  rw [her]
  apply selectFreeId_ne
  · exact fold_record_mem frames _ p hp hp1
  · rw [fold_record_high frames _ 8 (Nat.le_refl 8)]

/-- Witness for C1: a window in which peer 5 answers; the committed
identifier is not 5. -/
theorem C1_enum_never_selects_recorded_id_witness :
    (∀ f ∈ [zeroFrame 5], f.len = 0 ∧ f.rtr = false ∧ f.ext = false) ∧
    (5 ∈ [zeroFrame 5].map (fun f => getCANID f.id)) ∧
    1 ≤ 5 ∧ 5 ≤ 127 ∧ 0 + 100 ≤ 100 ∧
    ((checkCANenum 100
        ([zeroFrame 5].foldl (fun st f => (process_single_message 0 st f).1)
          (CANenumeration 0 testState).1)).module_config.CANID ≠ 5 ∧
     (checkCANenum 100
        ([zeroFrame 5].foldl (fun st f => (process_single_message 0 st f).1)
          (CANenumeration 0 testState).1)).bCANenum = false) :=
  ⟨by decide, by decide, by decide, by decide, by decide,
   C1_enum_never_selects_recorded_id testState (CANenumeration 0 testState).1
     ([zeroFrame 5].foldl (fun st f => (process_single_message 0 st f).1)
       (CANenumeration 0 testState).1)
     0 0 100 [zeroFrame 5] 5 rfl rfl (by decide) (by decide) (by decide)
     (by decide) (by decide)⟩

/-- C2: checkCANenum does clear the enumeration flag and its selection yields
1 with no responses and 3 with responses {1,2,4}; but it does not commit the
lowest free identifier in general: with the single response 9 it commits 2
although the lowest free identifier is 1 (the bitmap is written at bit p%8 of
byte p/16 but scanned as i*16+b, which disagree whenever p%16 is at least
8). -/
theorem C2_checkCANenum_not_lowest_free :
    (enumRun []).module_config.CANID = 1 ∧ (enumRun []).bCANenum = false ∧
    (enumRun [1, 2, 4]).module_config.CANID = 3 ∧
    (enumRun [1, 2, 4]).bCANenum = false ∧
    (enumRun [9]).module_config.CANID = 2 ∧
    spec_lowest_free_id [9] = 1 ∧
    (enumRun [9]).module_config.CANID ≠ spec_lowest_free_id [9] := by
  decide

/-- Counterexample to C3 as stated: in learn mode, learning a fresh event
with ev-index 2 writes no header (only indices below 2 do), so
find_existing(nn,en) stays at EE_MAX_EVENTS and the subsequent REVAL at that
index is answered with CMDERR(6) rather than a NEVAL carrying the value. -/
theorem C3_roundtrip_counterexample :
    ((process_single_message 0 learnState
        (dataFrame [OPC_EVLRN, 0, 1, 0, 1, 2, 7])).2.map
      (fun sf => sf.frame.byte 0)) = [OPC_WRACK] ∧
    (process_single_message 0 learnState
        (dataFrame [OPC_EVLRN, 0, 1, 0, 1, 2, 7])).1.module_config.findExistingEvent 1 1
      = 4 ∧
    learnState.module_config.EE_MAX_EVENTS = 4 ∧
    ((process_single_message 0
        (process_single_message 0 learnState
          (dataFrame [OPC_EVLRN, 0, 1, 0, 1, 2, 7])).1
        (dataFrame [OPC_REVAL, 1, 4, 4, 2])).2.map
      (fun sf => (sf.frame.byte 0, sf.frame.byte 3))) = [(OPC_CMDERR, 6)] ∧
    (∀ sf ∈ (process_single_message 0
        (process_single_message 0 learnState
          (dataFrame [OPC_EVLRN, 0, 1, 0, 1, 2, 7])).1
        (dataFrame [OPC_REVAL, 1, 4, 4, 2])).2, sf.frame.byte 0 ≠ OPC_NEVAL) := by
  decide

/-- C10: clear resets head, tail, size and the full flag but leaves the
puts, gets, overflows and hwm meters (and the stored items) unchanged; after
a put followed by clear the metering identity fails. -/
theorem C10_clear_resets_geometry_keeps_meters (b : circular_buffer2) :
    (circular_buffer2.clear b)._head = 0 ∧
    (circular_buffer2.clear b)._tail = 0 ∧
    (circular_buffer2.clear b)._full = false ∧
    (circular_buffer2.clear b)._size = 0 ∧
    (circular_buffer2.clear b)._puts = b._puts ∧
    (circular_buffer2.clear b)._gets = b._gets ∧
    (circular_buffer2.clear b)._overflows = b._overflows ∧
    (circular_buffer2.clear b)._hwm = b._hwm ∧
    (circular_buffer2.clear b)._buffer = b._buffer ∧
    ((circular_buffer2.clear
        (circular_buffer2.put 0 7 (circular_buffer2.init 4)))._puts ≠
      ((circular_buffer2.clear
          (circular_buffer2.put 0 7 (circular_buffer2.init 4)))._gets +
       (circular_buffer2.clear
          (circular_buffer2.put 0 7 (circular_buffer2.init 4)))._size +
       (circular_buffer2.clear
          (circular_buffer2.put 0 7 (circular_buffer2.init 4)))._overflows)
        % UINT_MOD) := by
  refine ⟨rfl, rfl, rfl, rfl, rfl, rfl, rfl, rfl, rfl, ?_⟩
  decide

/-- C7: a CANID frame addressed to our node number commits the new
identifier when it lies in 1..99 (no response), and answers CMDERR(7) leaving
the identifier unchanged when it is 0 or above 99. -/
theorem C7_CANID_boundaries
    (s : CBUSbase) (f : CANFrame) (t : Nat)
    (hopc : f.byte 0 = OPC_CANID) (hlen : 0 < f.len) (hext : f.ext = false)
    (hnn : nnOf f = s.module_config.nodeNum) :
    ((f.byte 3 = 0 ∨ 99 < f.byte 3) →
      (process_single_message t s f).2.map
          (fun sf => (sf.frame.byte 0, sf.frame.byte 3)) = [(OPC_CMDERR, 7)] ∧
      (process_single_message t s f).1.module_config = s.module_config) ∧
    (1 ≤ f.byte 3 → f.byte 3 ≤ 99 →
      (process_single_message t s f).2 = [] ∧
      (process_single_message t s f).1.module_config
        = s.module_config.setCANID (f.byte 3)) := by
  rw [psm_data t s f hlen hext, hopc]
  have hdisp : dispatchOpc t (clashCheck (pulseGrn s) f) f OPC_CANID
      (nnOf f) (enOf f) (getCANID f.id)
      = handleCANID (clashCheck (pulseGrn s) f) f (nnOf f) := by
    simp [dispatchOpc]
  rw [hdisp]
  have hnn2 : nnOf f = (clashCheck (pulseGrn s) f).module_config.nodeNum := by
    simp [hnn]
  constructor
  · intro hbad
    rw [handleCANID, if_pos hnn2, if_pos (by omega)]
    simp [sendCMDERR, CANFrame.byte]
  · intro h1 h2
    rw [handleCANID, if_pos hnn2, if_neg (by omega)]
    simp

/-- Witness for C7: value 99 is committed; the hypotheses hold at a concrete
frame addressed to the test node. -/
theorem C7_CANID_boundaries_witness :
    (dataFrame [OPC_CANID, 1, 4, 99]).byte 0 = OPC_CANID ∧
    0 < (dataFrame [OPC_CANID, 1, 4, 99]).len ∧
    (dataFrame [OPC_CANID, 1, 4, 99]).ext = false ∧
    nnOf (dataFrame [OPC_CANID, 1, 4, 99]) = testState.module_config.nodeNum ∧
    (((dataFrame [OPC_CANID, 1, 4, 99]).byte 3 = 0 ∨
        99 < (dataFrame [OPC_CANID, 1, 4, 99]).byte 3) →
      (process_single_message 0 testState (dataFrame [OPC_CANID, 1, 4, 99])).2.map
          (fun sf => (sf.frame.byte 0, sf.frame.byte 3)) = [(OPC_CMDERR, 7)] ∧
      (process_single_message 0 testState
          (dataFrame [OPC_CANID, 1, 4, 99])).1.module_config
        = testState.module_config) ∧
    (1 ≤ (dataFrame [OPC_CANID, 1, 4, 99]).byte 3 →
      (dataFrame [OPC_CANID, 1, 4, 99]).byte 3 ≤ 99 →
      (process_single_message 0 testState (dataFrame [OPC_CANID, 1, 4, 99])).2 = [] ∧
      (process_single_message 0 testState
          (dataFrame [OPC_CANID, 1, 4, 99])).1.module_config
        = testState.module_config.setCANID
            ((dataFrame [OPC_CANID, 1, 4, 99]).byte 3)) :=
  ⟨by decide, by decide, by decide, by decide,
   (C7_CANID_boundaries testState (dataFrame [OPC_CANID, 1, 4, 99]) 0
     (by decide) (by decide) (by decide) (by decide)).1,
   (C7_CANID_boundaries testState (dataFrame [OPC_CANID, 1, 4, 99]) 0
     (by decide) (by decide) (by decide) (by decide)).2⟩

/-- C8: an RQNPN frame addressed to our node number answers PARAN with the
requested index and parameter byte whenever the index does not exceed
params[0] (the boundary index params[0] included), and answers CMDERR(9)
otherwise. -/
theorem C8_RQNPN_boundaries
    (s : CBUSbase) (f : CANFrame) (t : Nat)
    (hopc : f.byte 0 = OPC_RQNPN) (hlen : 0 < f.len) (hext : f.ext = false)
    (hnn : nnOf f = s.module_config.nodeNum) :
    (f.byte 3 ≤ param s 0 →
      (process_single_message t s f).2.map
          (fun sf => (sf.frame.byte 0, sf.frame.len, sf.frame.byte 3, sf.frame.byte 4))
        = [(OPC_PARAN, 5, f.byte 3, param s (f.byte 3))] ∧
      (process_single_message t s f).1.module_config = s.module_config) ∧
    (param s 0 < f.byte 3 →
      (process_single_message t s f).2.map
          (fun sf => (sf.frame.byte 0, sf.frame.byte 3)) = [(OPC_CMDERR, 9)]) := by
  rw [psm_data t s f hlen hext, hopc]
  have hdisp : dispatchOpc t (clashCheck (pulseGrn s) f) f OPC_RQNPN
      (nnOf f) (enOf f) (getCANID f.id)
      = handleRQNPN (clashCheck (pulseGrn s) f) f (nnOf f) := by
    simp [dispatchOpc]
  rw [hdisp]
  have hnn2 : nnOf f = (clashCheck (pulseGrn s) f).module_config.nodeNum := by
    simp [hnn]
  have hpar : param (clashCheck (pulseGrn s) f) 0 = param s 0 := by simp [param]
  constructor
  · intro hle
    rw [handleRQNPN, if_pos hnn2, if_pos (by rw [hpar]; exact hle)]
    have hb3 : f.byte 3 % 256 = f.byte 3 := by
      have : f.byte 3 < 256 := Nat.mod_lt _ (by omega)
      omega
    simp [CANFrame.byte, param, hb3]
  · intro hgt
    rw [handleRQNPN, if_pos hnn2, if_neg (by rw [hpar]; omega)]
    simp [sendCMDERR, CANFrame.byte]

/-- Witness for C8: reading exactly index params[0] (20 in the test state)
answers PARAN. -/
theorem C8_RQNPN_boundaries_witness :
    (dataFrame [OPC_RQNPN, 1, 4, 20]).byte 0 = OPC_RQNPN ∧
    0 < (dataFrame [OPC_RQNPN, 1, 4, 20]).len ∧
    (dataFrame [OPC_RQNPN, 1, 4, 20]).ext = false ∧
    nnOf (dataFrame [OPC_RQNPN, 1, 4, 20]) = testState.module_config.nodeNum ∧
    (((dataFrame [OPC_RQNPN, 1, 4, 20]).byte 3 ≤ param testState 0 →
      (process_single_message 0 testState (dataFrame [OPC_RQNPN, 1, 4, 20])).2.map
          (fun sf => (sf.frame.byte 0, sf.frame.len, sf.frame.byte 3, sf.frame.byte 4))
        = [(OPC_PARAN, 5, (dataFrame [OPC_RQNPN, 1, 4, 20]).byte 3,
            param testState ((dataFrame [OPC_RQNPN, 1, 4, 20]).byte 3))] ∧
      (process_single_message 0 testState
          (dataFrame [OPC_RQNPN, 1, 4, 20])).1.module_config
        = testState.module_config) ∧
    (param testState 0 < (dataFrame [OPC_RQNPN, 1, 4, 20]).byte 3 →
      (process_single_message 0 testState (dataFrame [OPC_RQNPN, 1, 4, 20])).2.map
          (fun sf => (sf.frame.byte 0, sf.frame.byte 3)) = [(OPC_CMDERR, 9)])) :=
  ⟨by decide, by decide, by decide, by decide,
   C8_RQNPN_boundaries testState (dataFrame [OPC_RQNPN, 1, 4, 20]) 0
     (by decide) (by decide) (by decide) (by decide)⟩

/-- C9: an EVLRN or EVULN data frame received while learn mode is clear is
silently ignored: no frame is sent and the ConfigStore and dispatcher flags
are untouched. -/
theorem C9_learn_ops_ignored_outside_learn_mode
    (s : CBUSbase) (f : CANFrame) (t : Nat)
    (hopc : f.byte 0 = OPC_EVLRN ∨ f.byte 0 = OPC_EVULN)
    (hlen : 0 < f.len) (hext : f.ext = false)
    (hlearn : s.bLearn = false) :
    (process_single_message t s f).2 = [] ∧
    (process_single_message t s f).1.module_config = s.module_config ∧
    (process_single_message t s f).1.bLearn = false ∧
    (process_single_message t s f).1.bCANenum = s.bCANenum ∧
    (process_single_message t s f).1.bModeChanging = s.bModeChanging ∧
    (process_single_message t s f).1.enum_responses = s.enum_responses ∧
    (process_single_message t s f).1._mparams = s._mparams := by
  rw [psm_data t s f hlen hext]
  rcases hopc with h | h <;> rw [h]
  · have hdisp : dispatchOpc t (clashCheck (pulseGrn s) f) f OPC_EVLRN
        (nnOf f) (enOf f) (getCANID f.id)
        = handleEVLRN (clashCheck (pulseGrn s) f) f (nnOf f) (enOf f) := by
      simp [dispatchOpc]
    rw [hdisp, handleEVLRN]
    simp [hlearn]
  · have hdisp : dispatchOpc t (clashCheck (pulseGrn s) f) f OPC_EVULN
        (nnOf f) (enOf f) (getCANID f.id)
        = handleEVULN (clashCheck (pulseGrn s) f) (nnOf f) (enOf f) := by
      simp [dispatchOpc]
    rw [hdisp, handleEVULN]
    simp [hlearn]

/-- Witness for C9: an EVLRN frame processed outside learn mode leaves the
test state unchanged and produces no output. -/
theorem C9_learn_ops_ignored_outside_learn_mode_witness :
    ((dataFrame [OPC_EVLRN, 0, 1, 0, 1, 1, 7]).byte 0 = OPC_EVLRN ∨
      (dataFrame [OPC_EVLRN, 0, 1, 0, 1, 1, 7]).byte 0 = OPC_EVULN) ∧
    0 < (dataFrame [OPC_EVLRN, 0, 1, 0, 1, 1, 7]).len ∧
    (dataFrame [OPC_EVLRN, 0, 1, 0, 1, 1, 7]).ext = false ∧
    testState.bLearn = false ∧
    ((process_single_message 0 testState (dataFrame [OPC_EVLRN, 0, 1, 0, 1, 1, 7])).2 = [] ∧
     (process_single_message 0 testState
        (dataFrame [OPC_EVLRN, 0, 1, 0, 1, 1, 7])).1.module_config
       = testState.module_config ∧
     (process_single_message 0 testState
        (dataFrame [OPC_EVLRN, 0, 1, 0, 1, 1, 7])).1.bLearn = false ∧
     (process_single_message 0 testState
        (dataFrame [OPC_EVLRN, 0, 1, 0, 1, 1, 7])).1.bCANenum = testState.bCANenum ∧
     (process_single_message 0 testState
        (dataFrame [OPC_EVLRN, 0, 1, 0, 1, 1, 7])).1.bModeChanging
       = testState.bModeChanging ∧
     (process_single_message 0 testState
        (dataFrame [OPC_EVLRN, 0, 1, 0, 1, 1, 7])).1.enum_responses
       = testState.enum_responses ∧
     (process_single_message 0 testState
        (dataFrame [OPC_EVLRN, 0, 1, 0, 1, 1, 7])).1._mparams = testState._mparams) :=
  ⟨by decide, by decide, by decide, by decide,
   C9_learn_ops_ignored_outside_learn_mode testState
     (dataFrame [OPC_EVLRN, 0, 1, 0, 1, 1, 7]) 0
     (by decide) (by decide) (by decide) (by decide)⟩

/-- C5: an SNN frame received while the mode change is pending commits the
node number from the frame, acknowledges with NNACK, enters FLiM, shows the
FLiM indicator (yellow on, green off) and starts a fresh enumeration cycle
(bitmap cleared, zero-length RTR probe emitted, enumeration flag set); when
no mode change is pending (and the frame causes no identifier clash) the SNN
frame has no effect and produces no response. -/
theorem C5_SNN_transition
    (s : CBUSbase) (f : CANFrame) (t : Nat)
    (hopc : f.byte 0 = OPC_SNN) (hlen : 0 < f.len) (hext : f.ext = false) :
    (s.bModeChanging = true → s.UI = true →
      (process_single_message t s f).1.module_config.FLiM = true ∧
      (process_single_message t s f).1.module_config.nodeNum = nnOf f ∧
      (process_single_message t s f).1.bModeChanging = false ∧
      (process_single_message t s f).1._ledYlw = LEDState.ledOn ∧
      (process_single_message t s f).1._ledGrn = LEDState.ledOff ∧
      (process_single_message t s f).1.bCANenum = true ∧
      (process_single_message t s f).1.enum_responses = (fun _ => 0) ∧
      (process_single_message t s f).1.CANenumTime = t ∧
      (process_single_message t s f).2.map (fun sf => (sf.frame.len, sf.rtr, sf.ext))
        = [(3, false, false), (0, true, false)] ∧
      ((process_single_message t s f).2.map (fun sf => sf.frame.byte 0)).head?
        = some OPC_NNACK) ∧
    (s.bModeChanging = false → getCANID f.id ≠ s.module_config.CANID →
      (process_single_message t s f).2 = [] ∧
      (process_single_message t s f).1.module_config = s.module_config ∧
      (process_single_message t s f).1.bModeChanging = false ∧
      (process_single_message t s f).1.bCANenum = s.bCANenum ∧
      (process_single_message t s f).1.bLearn = s.bLearn ∧
      (process_single_message t s f).1.enum_responses = s.enum_responses ∧
      (process_single_message t s f).1.CANenumTime = s.CANenumTime ∧
      (process_single_message t s f).1.enumeration_required
        = s.enumeration_required) := by
  rw [psm_data t s f hlen hext, hopc]
  have hdisp : dispatchOpc t (clashCheck (pulseGrn s) f) f OPC_SNN
      (nnOf f) (enOf f) (getCANID f.id)
      = handleSNN t (clashCheck (pulseGrn s) f) f (nnOf f) := by
    simp [dispatchOpc]
  rw [hdisp]
  constructor
  · intro hmc hui
    rw [handleSNN, if_pos (by simp [hmc])]
    simp [CBUSConfig.setNodeNum, CBUSConfig.setFLiM, indicateMode, CANenumeration,
      hui, CANFrame.byte]
  · intro hmc hnc
    rw [handleSNN, if_neg (by simp [hmc])]
    have hcl : clashCheck (pulseGrn s) f = pulseGrn s := by
      unfold clashCheck
      rw [if_neg]
      simp [hnc]
    rw [hcl]
    simp [hmc]

/-- Witness for C5: SNN with nn = 260 received in transition on the test
state. -/
theorem C5_SNN_transition_witness :
    (dataFrame [OPC_SNN, 1, 4]).byte 0 = OPC_SNN ∧
    0 < (dataFrame [OPC_SNN, 1, 4]).len ∧
    (dataFrame [OPC_SNN, 1, 4]).ext = false ∧
    ((({ testState with bModeChanging := true } : CBUSbase).bModeChanging = true →
      ({ testState with bModeChanging := true } : CBUSbase).UI = true →
      (process_single_message 7 { testState with bModeChanging := true }
          (dataFrame [OPC_SNN, 1, 4])).1.module_config.FLiM = true ∧
      (process_single_message 7 { testState with bModeChanging := true }
          (dataFrame [OPC_SNN, 1, 4])).1.module_config.nodeNum
        = nnOf (dataFrame [OPC_SNN, 1, 4]) ∧
      (process_single_message 7 { testState with bModeChanging := true }
          (dataFrame [OPC_SNN, 1, 4])).1.bModeChanging = false ∧
      (process_single_message 7 { testState with bModeChanging := true }
          (dataFrame [OPC_SNN, 1, 4])).1._ledYlw = LEDState.ledOn ∧
      (process_single_message 7 { testState with bModeChanging := true }
          (dataFrame [OPC_SNN, 1, 4])).1._ledGrn = LEDState.ledOff ∧
      (process_single_message 7 { testState with bModeChanging := true }
          (dataFrame [OPC_SNN, 1, 4])).1.bCANenum = true ∧
      (process_single_message 7 { testState with bModeChanging := true }
          (dataFrame [OPC_SNN, 1, 4])).1.enum_responses = (fun _ => 0) ∧
      (process_single_message 7 { testState with bModeChanging := true }
          (dataFrame [OPC_SNN, 1, 4])).1.CANenumTime = 7 ∧
      (process_single_message 7 { testState with bModeChanging := true }
          (dataFrame [OPC_SNN, 1, 4])).2.map (fun sf => (sf.frame.len, sf.rtr, sf.ext))
        = [(3, false, false), (0, true, false)] ∧
      ((process_single_message 7 { testState with bModeChanging := true }
          (dataFrame [OPC_SNN, 1, 4])).2.map (fun sf => sf.frame.byte 0)).head?
        = some OPC_NNACK) ∧
    (({ testState with bModeChanging := true } : CBUSbase).bModeChanging = false →
      getCANID (dataFrame [OPC_SNN, 1, 4]).id
        ≠ ({ testState with bModeChanging := true } : CBUSbase).module_config.CANID →
      (process_single_message 7 { testState with bModeChanging := true }
          (dataFrame [OPC_SNN, 1, 4])).2 = [] ∧
      (process_single_message 7 { testState with bModeChanging := true }
          (dataFrame [OPC_SNN, 1, 4])).1.module_config
        = ({ testState with bModeChanging := true } : CBUSbase).module_config ∧
      (process_single_message 7 { testState with bModeChanging := true }
          (dataFrame [OPC_SNN, 1, 4])).1.bModeChanging = false ∧
      (process_single_message 7 { testState with bModeChanging := true }
          (dataFrame [OPC_SNN, 1, 4])).1.bCANenum
        = ({ testState with bModeChanging := true } : CBUSbase).bCANenum ∧
      (process_single_message 7 { testState with bModeChanging := true }
          (dataFrame [OPC_SNN, 1, 4])).1.bLearn
        = ({ testState with bModeChanging := true } : CBUSbase).bLearn ∧
      (process_single_message 7 { testState with bModeChanging := true }
          (dataFrame [OPC_SNN, 1, 4])).1.enum_responses
        = ({ testState with bModeChanging := true } : CBUSbase).enum_responses ∧
      (process_single_message 7 { testState with bModeChanging := true }
          (dataFrame [OPC_SNN, 1, 4])).1.CANenumTime
        = ({ testState with bModeChanging := true } : CBUSbase).CANenumTime ∧
      (process_single_message 7 { testState with bModeChanging := true }
          (dataFrame [OPC_SNN, 1, 4])).1.enumeration_required
        = ({ testState with bModeChanging := true } : CBUSbase).enumeration_required)) :=
  ⟨by decide, by decide, by decide,
   C5_SNN_transition { testState with bModeChanging := true }
     (dataFrame [OPC_SNN, 1, 4]) 7 (by decide) (by decide) (by decide)⟩

/-- C4: an EVLRN frame in learn mode resolves the slot by find_existing with
fallback find_empty_slot; when no slot is available it answers CMDERR(10)
and leaves the store untouched; otherwise it answers WRACK, always persists
the ev-variable, and writes the event header and refreshes the hash entry
exactly when the ev-var index is below 2. -/
theorem C4_EVLRN_effect
    (s : CBUSbase) (f : CANFrame) (t : Nat) (i0 idx : Nat)
    (hopc : f.byte 0 = OPC_EVLRN) (hlen : 0 < f.len) (hext : f.ext = false)
    (hlearn : s.bLearn = true)
    (hi0 : i0 = s.module_config.findExistingEvent (nnOf f) (enOf f))
    (hidx : idx = if s.module_config.EE_MAX_EVENTS ≤ i0 then
        s.module_config.findEventSpace else i0) :
    (s.module_config.EE_MAX_EVENTS ≤ idx →
      (process_single_message t s f).2.map
          (fun sf => (sf.frame.byte 0, sf.frame.byte 3)) = [(OPC_CMDERR, 10)] ∧
      (process_single_message t s f).1.module_config = s.module_config) ∧
    (idx < s.module_config.EE_MAX_EVENTS →
      (process_single_message t s f).2.map (fun sf => sf.frame.byte 0) = [OPC_WRACK] ∧
      (process_single_message t s f).1.module_config.evVars
        = fupd2 s.module_config.evVars idx (f.byte 5) (f.byte 6) ∧
      (f.byte 5 < 2 →
        (process_single_message t s f).1.module_config.events
          = fupd s.module_config.events idx (some (nnOf f, enOf f)) ∧
        (process_single_message t s f).1.module_config.evHash
          = fupd s.module_config.evHash idx 1) ∧
      (2 ≤ f.byte 5 →
        (process_single_message t s f).1.module_config.events
          = s.module_config.events ∧
        (process_single_message t s f).1.module_config.evHash
          = s.module_config.evHash)) := by
  subst hi0 hidx
  rw [psm_data t s f hlen hext, hopc]
  have hdisp : dispatchOpc t (clashCheck (pulseGrn s) f) f OPC_EVLRN
      (nnOf f) (enOf f) (getCANID f.id)
      = handleEVLRN (clashCheck (pulseGrn s) f) f (nnOf f) (enOf f) := by
    simp [dispatchOpc]
  rw [hdisp]
  simp only [handleEVLRN, clashCheck_module_config, pulseGrn_module_config,
    clashCheck_bLearn, pulseGrn_bLearn, hlearn, if_true]
  constructor
  · intro hge
    rw [if_neg (by omega)]
    simp [sendCMDERR, CANFrame.byte]
  · intro hlt
    rw [if_pos hlt]
    refine ⟨?_, ?_, ?_, ?_⟩
    · simp [sendWRACK, CANFrame.byte]
    · by_cases hev : f.byte 5 < 2
      · simp [hev, sendWRACK, CBUSConfig.writeEventEV, CBUSConfig.updateEvHashEntry,
          CBUSConfig.writeEvent]
      · simp [hev, sendWRACK, CBUSConfig.writeEventEV]
    · intro hev
      constructor
      · simp [hev, sendWRACK, CBUSConfig.writeEventEV, CBUSConfig.updateEvHashEntry,
          CBUSConfig.writeEvent]
      · simp [hev, sendWRACK, CBUSConfig.writeEventEV, CBUSConfig.updateEvHashEntry,
          CBUSConfig.writeEvent, fupd_same, CBUSConfig.occVal]
    · intro hev
      have hev2 : ¬ f.byte 5 < 2 := by omega
      constructor
      · simp [hev2, sendWRACK, CBUSConfig.writeEventEV]
      · simp [hev2, sendWRACK, CBUSConfig.writeEventEV]

/-- Witness for C4: learning (nn,en) = (1,1) with ev-index 1 and value 7 in
an empty table allocates slot 0 and acknowledges. -/
theorem C4_EVLRN_effect_witness :
    (dataFrame [OPC_EVLRN, 0, 1, 0, 1, 1, 7]).byte 0 = OPC_EVLRN ∧
    0 < (dataFrame [OPC_EVLRN, 0, 1, 0, 1, 1, 7]).len ∧
    (dataFrame [OPC_EVLRN, 0, 1, 0, 1, 1, 7]).ext = false ∧
    learnState.bLearn = true ∧
    ((learnState.module_config.EE_MAX_EVENTS ≤
        (if learnState.module_config.EE_MAX_EVENTS ≤
            learnState.module_config.findExistingEvent
              (nnOf (dataFrame [OPC_EVLRN, 0, 1, 0, 1, 1, 7]))
              (enOf (dataFrame [OPC_EVLRN, 0, 1, 0, 1, 1, 7])) then
          learnState.module_config.findEventSpace
        else learnState.module_config.findExistingEvent
              (nnOf (dataFrame [OPC_EVLRN, 0, 1, 0, 1, 1, 7]))
              (enOf (dataFrame [OPC_EVLRN, 0, 1, 0, 1, 1, 7]))) →
      (process_single_message 0 learnState
          (dataFrame [OPC_EVLRN, 0, 1, 0, 1, 1, 7])).2.map
          (fun sf => (sf.frame.byte 0, sf.frame.byte 3)) = [(OPC_CMDERR, 10)] ∧
      (process_single_message 0 learnState
          (dataFrame [OPC_EVLRN, 0, 1, 0, 1, 1, 7])).1.module_config
        = learnState.module_config) ∧
    ((if learnState.module_config.EE_MAX_EVENTS ≤
          learnState.module_config.findExistingEvent
            (nnOf (dataFrame [OPC_EVLRN, 0, 1, 0, 1, 1, 7]))
            (enOf (dataFrame [OPC_EVLRN, 0, 1, 0, 1, 1, 7])) then
        learnState.module_config.findEventSpace
      else learnState.module_config.findExistingEvent
            (nnOf (dataFrame [OPC_EVLRN, 0, 1, 0, 1, 1, 7]))
            (enOf (dataFrame [OPC_EVLRN, 0, 1, 0, 1, 1, 7])))
        < learnState.module_config.EE_MAX_EVENTS →
      (process_single_message 0 learnState
          (dataFrame [OPC_EVLRN, 0, 1, 0, 1, 1, 7])).2.map
          (fun sf => sf.frame.byte 0) = [OPC_WRACK] ∧
      (process_single_message 0 learnState
          (dataFrame [OPC_EVLRN, 0, 1, 0, 1, 1, 7])).1.module_config.evVars
        = fupd2 learnState.module_config.evVars
            (if learnState.module_config.EE_MAX_EVENTS ≤
                learnState.module_config.findExistingEvent
                  (nnOf (dataFrame [OPC_EVLRN, 0, 1, 0, 1, 1, 7]))
                  (enOf (dataFrame [OPC_EVLRN, 0, 1, 0, 1, 1, 7])) then
              learnState.module_config.findEventSpace
            else learnState.module_config.findExistingEvent
                  (nnOf (dataFrame [OPC_EVLRN, 0, 1, 0, 1, 1, 7]))
                  (enOf (dataFrame [OPC_EVLRN, 0, 1, 0, 1, 1, 7])))
            ((dataFrame [OPC_EVLRN, 0, 1, 0, 1, 1, 7]).byte 5)
            ((dataFrame [OPC_EVLRN, 0, 1, 0, 1, 1, 7]).byte 6) ∧
      ((dataFrame [OPC_EVLRN, 0, 1, 0, 1, 1, 7]).byte 5 < 2 →
        (process_single_message 0 learnState
            (dataFrame [OPC_EVLRN, 0, 1, 0, 1, 1, 7])).1.module_config.events
          = fupd learnState.module_config.events
              (if learnState.module_config.EE_MAX_EVENTS ≤
                  learnState.module_config.findExistingEvent
                    (nnOf (dataFrame [OPC_EVLRN, 0, 1, 0, 1, 1, 7]))
                    (enOf (dataFrame [OPC_EVLRN, 0, 1, 0, 1, 1, 7])) then
                learnState.module_config.findEventSpace
              else learnState.module_config.findExistingEvent
                    (nnOf (dataFrame [OPC_EVLRN, 0, 1, 0, 1, 1, 7]))
                    (enOf (dataFrame [OPC_EVLRN, 0, 1, 0, 1, 1, 7])))
              (some (nnOf (dataFrame [OPC_EVLRN, 0, 1, 0, 1, 1, 7]),
                enOf (dataFrame [OPC_EVLRN, 0, 1, 0, 1, 1, 7]))) ∧
        (process_single_message 0 learnState
            (dataFrame [OPC_EVLRN, 0, 1, 0, 1, 1, 7])).1.module_config.evHash
          = fupd learnState.module_config.evHash
              (if learnState.module_config.EE_MAX_EVENTS ≤
                  learnState.module_config.findExistingEvent
                    (nnOf (dataFrame [OPC_EVLRN, 0, 1, 0, 1, 1, 7]))
                    (enOf (dataFrame [OPC_EVLRN, 0, 1, 0, 1, 1, 7])) then
                learnState.module_config.findEventSpace
              else learnState.module_config.findExistingEvent
                    (nnOf (dataFrame [OPC_EVLRN, 0, 1, 0, 1, 1, 7]))
                    (enOf (dataFrame [OPC_EVLRN, 0, 1, 0, 1, 1, 7]))) 1) ∧
      (2 ≤ (dataFrame [OPC_EVLRN, 0, 1, 0, 1, 1, 7]).byte 5 →
        (process_single_message 0 learnState
            (dataFrame [OPC_EVLRN, 0, 1, 0, 1, 1, 7])).1.module_config.events
          = learnState.module_config.events ∧
        (process_single_message 0 learnState
            (dataFrame [OPC_EVLRN, 0, 1, 0, 1, 1, 7])).1.module_config.evHash
          = learnState.module_config.evHash))) :=
  ⟨by decide, by decide, by decide, by decide,
   C4_EVLRN_effect learnState (dataFrame [OPC_EVLRN, 0, 1, 0, 1, 1, 7]) 0
     (learnState.module_config.findExistingEvent
       (nnOf (dataFrame [OPC_EVLRN, 0, 1, 0, 1, 1, 7]))
       (enOf (dataFrame [OPC_EVLRN, 0, 1, 0, 1, 1, 7])))
     (if learnState.module_config.EE_MAX_EVENTS ≤
          learnState.module_config.findExistingEvent
            (nnOf (dataFrame [OPC_EVLRN, 0, 1, 0, 1, 1, 7]))
            (enOf (dataFrame [OPC_EVLRN, 0, 1, 0, 1, 1, 7])) then
        learnState.module_config.findEventSpace
      else learnState.module_config.findExistingEvent
            (nnOf (dataFrame [OPC_EVLRN, 0, 1, 0, 1, 1, 7]))
            (enOf (dataFrame [OPC_EVLRN, 0, 1, 0, 1, 1, 7])))
     (by decide) (by decide) (by decide) (by decide) rfl rfl⟩

theorem mod256_idem (x : Nat) : x % 256 % 256 = x % 256 := by omega

theorem findExisting_lt_spec (c : CBUSConfig) (nn en : Nat)
    (h : c.findExistingEvent nn en < c.EE_MAX_EVENTS) :
    c.events (c.findExistingEvent nn en) = some (nn, en) ∧
    ∀ j < c.findExistingEvent nn en, c.events j ≠ some (nn, en) := by
  unfold CBUSConfig.findExistingEvent at *
  cases hscan : scanFirst (fun i => decide (c.events i = some (nn, en))) 0
      c.EE_MAX_EVENTS with
  | none =>
      rw [hscan] at h
      simp at h
  | some i =>
      rw [hscan] at h
      obtain ⟨hp, _, _, hmin⟩ := scanFirst_some_spec _ _ _ _ hscan
      refine ⟨of_decide_eq_true hp, fun j hj => ?_⟩
      have := hmin j (Nat.zero_le _) (by simpa using hj)
      exact of_decide_eq_false this

theorem findExisting_ge_spec (c : CBUSConfig) (nn en : Nat)
    (h : c.EE_MAX_EVENTS ≤ c.findExistingEvent nn en) :
    ∀ j < c.EE_MAX_EVENTS, c.events j ≠ some (nn, en) := by
  unfold CBUSConfig.findExistingEvent at *
  cases hscan : scanFirst (fun i => decide (c.events i = some (nn, en))) 0
      c.EE_MAX_EVENTS with
  | none =>
      intro j hj
      have := scanFirst_none_spec _ _ _ hscan j (Nat.zero_le _) (by omega)
      exact of_decide_eq_false this
  | some i =>
      rw [hscan] at h
      obtain ⟨_, _, hcount, _⟩ := scanFirst_some_spec _ _ _ _ hscan
      simp at h
      omega

theorem findExisting_eq (c : CBUSConfig) (nn en i : Nat)
    (hi : i < c.EE_MAX_EVENTS) (hmatch : c.events i = some (nn, en))
    (hmin : ∀ j < i, c.events j ≠ some (nn, en)) :
    c.findExistingEvent nn en = i := by
  unfold CBUSConfig.findExistingEvent
  rw [scanFirst_eq_some _ c.EE_MAX_EVENTS 0 i (Nat.zero_le _) (by omega)
    (decide_eq_true hmatch) (fun j _ h2 => decide_eq_false (hmin j h2))]
  rfl

/-- C3 (amended): in learn mode, after an EVLRN frame carrying
(nn, en, ev-index k, ev-value v) is processed with a storage slot available,
a subsequent REVAL frame with matching node number, event index equal to
find_existing(nn,en) and ev-var index k is answered with a NEVAL response
whose value byte equals v — provided additionally that k is below 2 or the
event (nn,en) was already stored before the EVLRN (otherwise the event
header is never written and the REVAL is answered with CMDERR(6)), and that
the store hash table is consistent with the event table beforehand. -/
theorem C3_roundtrip_amended
    (s s1 : CBUSbase) (f1 f2 : CANFrame) (t1 t2 : Nat) (i : Nat)
    (hlearn : s.bLearn = true)
    (h1o : f1.byte 0 = OPC_EVLRN) (h1l : 0 < f1.len) (h1e : f1.ext = false)
    (hwf : ∀ j, s.module_config.evHash j
        = CBUSConfig.occVal (s.module_config.events j))
    (hslot : s.module_config.findExistingEvent (nnOf f1) (enOf f1)
        < s.module_config.EE_MAX_EVENTS ∨
      s.module_config.findEventSpace < s.module_config.EE_MAX_EVENTS)
    (hk : f1.byte 5 < 2 ∨
      s.module_config.findExistingEvent (nnOf f1) (enOf f1)
        < s.module_config.EE_MAX_EVENTS)
    (hs1 : s1 = (process_single_message t1 s f1).1)
    (hi : i = s1.module_config.findExistingEvent (nnOf f1) (enOf f1))
    (h2o : f2.byte 0 = OPC_REVAL) (h2l : 0 < f2.len) (h2e : f2.ext = false)
    (h2nn : nnOf f2 = s.module_config.nodeNum)
    (h2i : f2.byte 3 = i) (h2k : f2.byte 4 = f1.byte 5) :
    i < s.module_config.EE_MAX_EVENTS ∧
    (process_single_message t2 s1 f2).2.map
        (fun sf => (sf.frame.byte 0, sf.frame.byte 5))
      = [(OPC_NEVAL, f1.byte 6)] := by
  subst hs1
  obtain ⟨i0, hi0⟩ : ∃ x, x = s.module_config.findExistingEvent (nnOf f1) (enOf f1) :=
    ⟨_, rfl⟩
  obtain ⟨idx, hidx⟩ : ∃ x, x =
      (if s.module_config.EE_MAX_EVENTS ≤ i0 then s.module_config.findEventSpace
       else i0) := ⟨_, rfl⟩
  rw [← hi0] at hslot hk
  have hidxlt : idx < s.module_config.EE_MAX_EVENTS := by
    rcases Nat.lt_or_ge i0 s.module_config.EE_MAX_EVENTS with hlt | hge
    · rw [hidx, if_neg (by omega)]; exact hlt
    · rw [hidx, if_pos hge]
      rcases hslot with h | h
      · omega
      · exact h
  have hdisp1 : dispatchOpc t1 (clashCheck (pulseGrn s) f1) f1 OPC_EVLRN
      (nnOf f1) (enOf f1) (getCANID f1.id)
      = handleEVLRN (clashCheck (pulseGrn s) f1) f1 (nnOf f1) (enOf f1) := by
    simp [dispatchOpc]
  have hcfg : (process_single_message t1 s f1).1.module_config
      = CBUSConfig.writeEventEV
          (if f1.byte 5 < 2 then
            (s.module_config.writeEvent idx (nnOf f1) (enOf f1)).updateEvHashEntry idx
           else s.module_config) idx (f1.byte 5) (f1.byte 6) := by
    rw [psm_data t1 s f1 h1l h1e, h1o, hdisp1]
    simp only [handleEVLRN, clashCheck_module_config, pulseGrn_module_config,
      clashCheck_bLearn, pulseGrn_bLearn, hlearn, if_true]
    rw [← hi0, ← hidx, if_pos hidxlt]
    simp [sendWRACK]
  obtain ⟨c2, hc2⟩ : ∃ c, c = (process_single_message t1 s f1).1.module_config :=
    ⟨_, rfl⟩
  rw [← hc2] at hi
  have hc2val : c2 = CBUSConfig.writeEventEV
      (if f1.byte 5 < 2 then
        (s.module_config.writeEvent idx (nnOf f1) (enOf f1)).updateEvHashEntry idx
       else s.module_config) idx (f1.byte 5) (f1.byte 6) := by
    rw [hc2, hcfg]
  have hmax2 : c2.EE_MAX_EVENTS = s.module_config.EE_MAX_EVENTS := by
    rw [hc2val]
    by_cases hev : f1.byte 5 < 2 <;>
      simp [hev, CBUSConfig.writeEventEV, CBUSConfig.updateEvHashEntry,
        CBUSConfig.writeEvent]
  have hnn2 : c2.nodeNum = s.module_config.nodeNum := by
    rw [hc2val]
    by_cases hev : f1.byte 5 < 2 <;>
      simp [hev, CBUSConfig.writeEventEV, CBUSConfig.updateEvHashEntry,
        CBUSConfig.writeEvent]
  have hev2 : c2.events =
      (if f1.byte 5 < 2 then
        fupd s.module_config.events idx (some (nnOf f1, enOf f1))
       else s.module_config.events) := by
    rw [hc2val]
    by_cases hev : f1.byte 5 < 2 <;>
      simp [hev, CBUSConfig.writeEventEV, CBUSConfig.updateEvHashEntry,
        CBUSConfig.writeEvent]
  have hhash2 : c2.evHash =
      (if f1.byte 5 < 2 then fupd s.module_config.evHash idx 1
       else s.module_config.evHash) := by
    rw [hc2val]
    by_cases hev : f1.byte 5 < 2 <;>
      simp [hev, CBUSConfig.writeEventEV, CBUSConfig.updateEvHashEntry,
        CBUSConfig.writeEvent, fupd_same, CBUSConfig.occVal]
  have hvars2 : c2.evVars = fupd2 s.module_config.evVars idx (f1.byte 5) (f1.byte 6) := by
    rw [hc2val]
    by_cases hev : f1.byte 5 < 2 <;>
      simp [hev, CBUSConfig.writeEventEV, CBUSConfig.updateEvHashEntry,
        CBUSConfig.writeEvent]
  have hmatch : c2.events idx = some (nnOf f1, enOf f1) := by
    by_cases hev : f1.byte 5 < 2
    · rw [hev2, if_pos hev, fupd_same]
    · have hi0lt : i0 < s.module_config.EE_MAX_EVENTS := by
        rcases hk with h | h
        · omega
        · exact h
      have hidxi0 : idx = i0 := by rw [hidx, if_neg (by omega)]
      have hspec := findExisting_lt_spec s.module_config (nnOf f1) (enOf f1)
        (by rw [← hi0]; exact hi0lt)
      rw [hev2, if_neg hev, hidxi0, hi0]
      exact hspec.1
  have hmin : ∀ j < idx, c2.events j ≠ some (nnOf f1, enOf f1) := by
    intro j hj
    have hj_ne : j ≠ idx := by omega
    have hcj : c2.events j = s.module_config.events j := by
      by_cases hev : f1.byte 5 < 2
      · rw [hev2, if_pos hev, fupd_other _ _ _ _ hj_ne]
      · rw [hev2, if_neg hev]
    rw [hcj]
    rcases Nat.lt_or_ge i0 s.module_config.EE_MAX_EVENTS with hlt | hge
    · have hidxi0 : idx = i0 := by rw [hidx, if_neg (by omega)]
      have hspec := findExisting_lt_spec s.module_config (nnOf f1) (enOf f1)
        (by rw [← hi0]; exact hlt)
      apply hspec.2
      rw [← hi0]
      omega
    · have hall := findExisting_ge_spec s.module_config (nnOf f1) (enOf f1)
        (by rw [← hi0]; exact hge)
      exact hall j (by omega)
  have hfind2 : c2.findExistingEvent (nnOf f1) (enOf f1) = idx :=
    findExisting_eq c2 _ _ idx (by rw [hmax2]; exact hidxlt) hmatch hmin
  have hieq : i = idx := by rw [hi, hfind2]
  refine ⟨by rw [hieq]; exact hidxlt, ?_⟩
  have hdisp2 : dispatchOpc t2
      (clashCheck (pulseGrn (process_single_message t1 s f1).1) f2) f2 OPC_REVAL
      (nnOf f2) (enOf f2) (getCANID f2.id)
      = handleREVAL (clashCheck (pulseGrn (process_single_message t1 s f1).1) f2) f2
          (nnOf f2) := by
    simp [dispatchOpc]
  rw [psm_data t2 _ f2 h2l h2e, h2o, hdisp2]
  have hhashidx : c2.evHash idx ≠ 0 := by
    by_cases hev : f1.byte 5 < 2
    · rw [hhash2, if_pos hev, fupd_same]
      omega
    · rw [hhash2, if_neg hev, hwf idx]
      have hevidx : s.module_config.events idx = some (nnOf f1, enOf f1) := by
        have := hmatch
        rw [hev2, if_neg hev] at this
        exact this
      rw [hevidx]
      simp [CBUSConfig.occVal]
  rw [handleREVAL,
    if_pos (show nnOf f2 =
      (clashCheck (pulseGrn (process_single_message t1 s f1).1) f2).module_config.nodeNum by
        simp only [clashCheck_module_config, pulseGrn_module_config, ← hc2, hnn2]
        exact h2nn),
    if_pos (show
      (clashCheck (pulseGrn (process_single_message t1 s f1).1) f2).module_config.getEvTableEntry
        (f2.byte 3) ≠ 0 by
        simp only [clashCheck_module_config, pulseGrn_module_config, ← hc2,
          CBUSConfig.getEvTableEntry]
        rw [h2i, hieq]
        exact hhashidx)]
  have hval : CBUSConfig.getEventEVval
      (clashCheck (pulseGrn (process_single_message t1 s f1).1) f2).module_config
      (f2.byte 3) (f2.byte 4) = f1.byte 6 := by
    simp only [clashCheck_module_config, pulseGrn_module_config, ← hc2]
    rw [CBUSConfig.getEventEVval, h2i, hieq, h2k, hvars2]
    simp [fupd_same, CANFrame.byte]
  rw [hval]
  simp [CANFrame.byte, mod256_idem]

/-- Witness for the amended C3: learn (1,1) with ev-index 1 and value 7, then
read it back with REVAL at the found index. -/
theorem C3_roundtrip_amended_witness :
    learnState.bLearn = true ∧
    (dataFrame [OPC_EVLRN, 0, 1, 0, 1, 1, 7]).byte 0 = OPC_EVLRN ∧
    0 < (dataFrame [OPC_EVLRN, 0, 1, 0, 1, 1, 7]).len ∧
    (dataFrame [OPC_EVLRN, 0, 1, 0, 1, 1, 7]).ext = false ∧
    (∀ j, learnState.module_config.evHash j
        = CBUSConfig.occVal (learnState.module_config.events j)) ∧
    (learnState.module_config.findExistingEvent
        (nnOf (dataFrame [OPC_EVLRN, 0, 1, 0, 1, 1, 7]))
        (enOf (dataFrame [OPC_EVLRN, 0, 1, 0, 1, 1, 7]))
        < learnState.module_config.EE_MAX_EVENTS ∨
      learnState.module_config.findEventSpace
        < learnState.module_config.EE_MAX_EVENTS) ∧
    ((dataFrame [OPC_EVLRN, 0, 1, 0, 1, 1, 7]).byte 5 < 2 ∨
      learnState.module_config.findExistingEvent
        (nnOf (dataFrame [OPC_EVLRN, 0, 1, 0, 1, 1, 7]))
        (enOf (dataFrame [OPC_EVLRN, 0, 1, 0, 1, 1, 7]))
        < learnState.module_config.EE_MAX_EVENTS) ∧
    (dataFrame [OPC_REVAL, 1, 4, 0, 1]).byte 0 = OPC_REVAL ∧
    0 < (dataFrame [OPC_REVAL, 1, 4, 0, 1]).len ∧
    (dataFrame [OPC_REVAL, 1, 4, 0, 1]).ext = false ∧
    nnOf (dataFrame [OPC_REVAL, 1, 4, 0, 1]) = learnState.module_config.nodeNum ∧
    (dataFrame [OPC_REVAL, 1, 4, 0, 1]).byte 3
      = (process_single_message 0 learnState
          (dataFrame [OPC_EVLRN, 0, 1, 0, 1, 1, 7])).1.module_config.findExistingEvent
          (nnOf (dataFrame [OPC_EVLRN, 0, 1, 0, 1, 1, 7]))
          (enOf (dataFrame [OPC_EVLRN, 0, 1, 0, 1, 1, 7])) ∧
    (dataFrame [OPC_REVAL, 1, 4, 0, 1]).byte 4
      = (dataFrame [OPC_EVLRN, 0, 1, 0, 1, 1, 7]).byte 5 ∧
    ((process_single_message 0 learnState
        (dataFrame [OPC_EVLRN, 0, 1, 0, 1, 1, 7])).1.module_config.findExistingEvent
        (nnOf (dataFrame [OPC_EVLRN, 0, 1, 0, 1, 1, 7]))
        (enOf (dataFrame [OPC_EVLRN, 0, 1, 0, 1, 1, 7]))
      < learnState.module_config.EE_MAX_EVENTS ∧
    (process_single_message 0
        (process_single_message 0 learnState
          (dataFrame [OPC_EVLRN, 0, 1, 0, 1, 1, 7])).1
        (dataFrame [OPC_REVAL, 1, 4, 0, 1])).2.map
        (fun sf => (sf.frame.byte 0, sf.frame.byte 5))
      = [(OPC_NEVAL, (dataFrame [OPC_EVLRN, 0, 1, 0, 1, 1, 7]).byte 6)]) :=
  ⟨by decide, by decide, by decide, by decide, fun j => rfl, by decide, by decide,
   by decide, by decide, by decide, by decide, by decide, by decide,
   C3_roundtrip_amended learnState
     (process_single_message 0 learnState
       (dataFrame [OPC_EVLRN, 0, 1, 0, 1, 1, 7])).1
     (dataFrame [OPC_EVLRN, 0, 1, 0, 1, 1, 7])
     (dataFrame [OPC_REVAL, 1, 4, 0, 1]) 0 0
     ((process_single_message 0 learnState
        (dataFrame [OPC_EVLRN, 0, 1, 0, 1, 1, 7])).1.module_config.findExistingEvent
        (nnOf (dataFrame [OPC_EVLRN, 0, 1, 0, 1, 1, 7]))
        (enOf (dataFrame [OPC_EVLRN, 0, 1, 0, 1, 1, 7])))
     (by decide) (by decide) (by decide) (by decide) (fun j => rfl) (by decide)
     (by decide) rfl rfl (by decide) (by decide) (by decide) (by decide)
     (by decide) (by decide)⟩

theorem succ_mod (x c : Nat) (hx : x < c) :
    (x + 1) % c = if x + 1 = c then 0 else x + 1 := by
  split
  · next h => rw [h, Nat.mod_self]
  · next h => exact Nat.mod_eq_of_lt (by omega)

theorem put_size_full (b : circular_buffer2) (t v : Nat)
    (hc : 1 ≤ b._capacity) (hhd : b._head < b._capacity)
    (htl : b._tail < b._capacity) (hft : b._full = true → b._head = b._tail) :
    (circular_buffer2.put t v b)._size
      = (if b._full = true then b._capacity else b.sizeCalc + 1) ∧
    ((circular_buffer2.put t v b)._full = true ↔
      (circular_buffer2.put t v b)._size = b._capacity) := by
  have hP : (circular_buffer2.put t v b)._size
      = circular_buffer2.sizeCalc (circular_buffer2.put t v b) := rfl
  have hfl : (circular_buffer2.put t v b)._full
      = ((b._head + 1) % b._capacity ==
         (if b._full = true then (b._tail + 1) % b._capacity else b._tail)) := rfl
  have hhd2 : (circular_buffer2.put t v b)._head = (b._head + 1) % b._capacity := rfl
  have htl2 : (circular_buffer2.put t v b)._tail
      = (if b._full = true then (b._tail + 1) % b._capacity else b._tail) := rfl
  have hcap2 : (circular_buffer2.put t v b)._capacity = b._capacity := rfl
  rw [hP]
  unfold circular_buffer2.sizeCalc
  rw [hfl, hhd2, htl2, hcap2]
  rw [succ_mod b._head b._capacity hhd]
  by_cases hf : b._full = true
  · have hht := hft hf
    rw [succ_mod b._tail b._capacity htl]
    simp [hf, hht, beq_iff_eq]
  · have hf2 : b._full = false := by
      revert hf; cases b._full <;> simp
    simp only [hf2, Bool.false_eq_true, if_false, beq_iff_eq]
    constructor
    · split_ifs <;> omega
    · split_ifs <;> constructor <;> intro h2 <;> omega

theorem bufInv_put (c : Nat) (b : circular_buffer2) (t v : Nat)
    (hc : 1 ≤ c) (h : BufInv c b) :
    BufInv c (circular_buffer2.put t v b) ∧
    (circular_buffer2.put t v b)._hwm
      = max b._hwm (circular_buffer2.put t v b)._size := by
  obtain ⟨hcap, hhd, htl, hsz, hfull, hcalc, hft, hhwm, hp, hg, ho, hid⟩ := h
  have hc2 : 1 ≤ b._capacity := by omega
  obtain ⟨hsize, hfiff⟩ := put_size_full b t v hc2 (by omega) (by omega) hft
  have hhd2 : (circular_buffer2.put t v b)._head = (b._head + 1) % b._capacity := rfl
  have htl2 : (circular_buffer2.put t v b)._tail
      = (if b._full = true then (b._tail + 1) % b._capacity else b._tail) := rfl
  have hcap2 : (circular_buffer2.put t v b)._capacity = b._capacity := rfl
  have hov : (circular_buffer2.put t v b)._overflows
      = (if b._full = true then (b._overflows + 1) % UINT_MOD else b._overflows) := rfl
  have hpu : (circular_buffer2.put t v b)._puts = (b._puts + 1) % UINT_MOD := rfl
  have hge : (circular_buffer2.put t v b)._gets = b._gets := rfl
  have hhw : (circular_buffer2.put t v b)._hwm
      = (if b._hwm < (circular_buffer2.put t v b)._size
         then (circular_buffer2.put t v b)._size else b._hwm) := rfl
  have hscP : (circular_buffer2.put t v b)._size
      = circular_buffer2.sizeCalc (circular_buffer2.put t v b) := rfl
  have hnotfull_lt : b._full = false → b.sizeCalc < b._capacity := by
    intro hf
    have h1 : b._size ≠ c := by
      intro he
      have := hfull.mpr he
      rw [hf] at this
      cases this
    omega
  refine ⟨⟨?_, ?_, ?_, ?_, ?_, hscP, ?_, ?_, ?_, ?_, ?_, ?_⟩, ?_⟩
  · rw [hcap2, hcap]
  · rw [hhd2]
    have := Nat.mod_lt (b._head + 1) (y := b._capacity) (by omega)
    omega
  · rw [htl2]
    by_cases hf : b._full = true
    · rw [if_pos hf]
      have := Nat.mod_lt (b._tail + 1) (y := b._capacity) (by omega)
      omega
    · rw [if_neg hf]
      omega
  · rw [hsize]
    by_cases hf : b._full = true
    · rw [if_pos hf]; omega
    · rw [if_neg hf]
      have hf2 : b._full = false := by revert hf; cases b._full <;> simp
      have := hnotfull_lt hf2
      omega
  · rw [hfiff, hcap]
  · intro hfp
    exact beq_iff_eq.mp hfp
  · rw [hhw]
    split_ifs <;> omega
  · rw [hpu]
    unfold UINT_MOD
    omega
  · rw [hge]
    exact hg
  · rw [hov]
    by_cases hf : b._full = true
    · rw [if_pos hf]; unfold UINT_MOD; omega
    · rw [if_neg hf]; exact ho
  · rw [hpu, hge, hov, hsize]
    by_cases hf : b._full = true
    · rw [if_pos hf, if_pos hf]
      have hsc : b._size = c := hfull.mp hf
      unfold UINT_MOD at *
      omega
    · rw [if_neg hf, if_neg hf]
      unfold UINT_MOD at *
      omega
  · rw [hhw]
    split_ifs <;> omega

theorem bufInv_get (c : Nat) (b : circular_buffer2) (hc : 1 ≤ c) (h : BufInv c b) :
    BufInv c (circular_buffer2.get b).1 ∧
    (circular_buffer2.get b).1._hwm = b._hwm ∧
    (circular_buffer2.get b).1._size ≤ b._size := by
  obtain ⟨hcap, hhd, htl, hsz, hfull, hcalc, hft, hhwm, hp, hg, ho, hid⟩ := h
  by_cases hs0 : 0 < b._size
  case neg =>
    have hgb : (circular_buffer2.get b).1 = b := by
      unfold circular_buffer2.get
      rw [if_neg hs0]
    rw [hgb]
    exact ⟨⟨hcap, hhd, htl, hsz, hfull, hcalc, hft, hhwm, hp, hg, ho, hid⟩,
      rfl, Nat.le_refl _⟩
  case pos =>
    obtain ⟨sz2, hszdef⟩ : ∃ x, x = circular_buffer2.sizeCalc
        { b with _full := false, _tail := (b._tail + 1) % b._capacity } := ⟨_, rfl⟩
    obtain ⟨tl2, htldef⟩ : ∃ x, x = (b._tail + 1) % b._capacity := ⟨_, rfl⟩
    have hgeq : (circular_buffer2.get b).1
        = { b with _full := false, _tail := tl2, _size := sz2, _gets := (b._gets + 1) % UINT_MOD } := by
      unfold circular_buffer2.get
      rw [if_pos hs0, hszdef, htldef]
    rw [hgeq]
    subst htldef
    have hsz2 : sz2 = b._size - 1 := by
      rw [hszdef]
      unfold circular_buffer2.sizeCalc at hcalc ⊢
      simp only [Bool.false_eq_true, if_false]
      rw [succ_mod b._tail b._capacity (by omega)]
      by_cases hf : b._full = true
      · have hht := hft hf
        rw [if_pos hf] at hcalc
        split_ifs <;> omega
      · rw [if_neg hf] at hcalc
        split_ifs at hcalc ⊢ <;> omega
    have hmod : (b._tail + 1) % b._capacity < b._capacity :=
      Nat.mod_lt _ (by omega)
    refine ⟨⟨hcap, hhd, ?_, ?_, ?_, ?_, ?_, ?_, hp, ?_, ho, ?_⟩, rfl, ?_⟩
    · show (b._tail + 1) % b._capacity < c
      omega
    · show sz2 ≤ c
      omega
    · show false = true ↔ sz2 = c
      have hne : sz2 ≠ c := by omega
      simp [hne]
    · exact hszdef
    · intro hx
      exact (Bool.false_ne_true hx).elim
    · show sz2 ≤ b._hwm
      omega
    · show (b._gets + 1) % UINT_MOD < UINT_MOD
      unfold UINT_MOD
      omega
    · show b._puts = ((b._gets + 1) % UINT_MOD + sz2 + b._overflows) % UINT_MOD
      unfold UINT_MOD at *
      omega
    · show sz2 ≤ b._size
      omega

theorem bufInv_step (c : Nat) (b : circular_buffer2) (op : BufOp) (hc : 1 ≤ c)
    (h : BufInv c b) :
    BufInv c (stepBuf b op) ∧
    (stepBuf b op)._hwm = max b._hwm (stepBuf b op)._size := by
  cases op with
  | bput t v => exact bufInv_put c b t v hc h
  | bget =>
      have hhw : b._size ≤ b._hwm := h.2.2.2.2.2.2.2.1
      obtain ⟨hinv, hw, hs⟩ := bufInv_get c b hc h
      refine ⟨hinv, ?_⟩
      show (circular_buffer2.get b).1._hwm
        = max b._hwm (circular_buffer2.get b).1._size
      rw [hw]
      omega

theorem bufInv_run (c : Nat) (hc : 1 ≤ c) (ops : List BufOp) :
    ∀ b, BufInv c b → BufInv c (ops.foldl stepBuf b) := by
  induction ops with
  | nil => intro b h; exact h
  | cons op rest ih => intro b h; exact ih _ (bufInv_step c b op hc h).1

theorem bufInv_init (c : Nat) (hc : 1 ≤ c) : BufInv c (circular_buffer2.init c) := by
  unfold BufInv
  refine ⟨rfl, ?_, ?_, ?_, ?_, ?_, ?_, ?_, ?_, ?_, ?_, ?_⟩
  · show 0 < c; omega
  · show 0 < c; omega
  · show 0 ≤ c; omega
  · show false = true ↔ 0 = c
    have hne : ¬(0 = c) := by omega
    simp [hne]
  · rfl
  · intro h; exact (Bool.false_ne_true h).elim
  · show (0 : Nat) ≤ 0; omega
  · show 0 < UINT_MOD; unfold UINT_MOD; omega
  · show 0 < UINT_MOD; unfold UINT_MOD; omega
  · show 0 < UINT_MOD; unfold UINT_MOD; omega
  · show (0 : Nat) = (0 + 0 + 0) % UINT_MOD; unfold UINT_MOD; omega

theorem hwm_run (c : Nat) (hc : 1 ≤ c) (ops : List BufOp) :
    ∀ b, BufInv c b →
      (ops.foldl stepBuf b)._hwm = (traceSizes b ops).foldl max b._hwm := by
  induction ops with
  | nil => intro b _; rfl
  | cons op rest ih =>
      intro b h
      obtain ⟨hstep, hmax⟩ := bufInv_step c b op hc h
      simp only [List.foldl_cons, traceSizes]
      rw [ih (stepBuf b op) hstep, hmax]

/-- C6: across every sequence of put and get operations on a buffer of
capacity at least 1, the metering identity puts = (gets + size + overflows)
mod 2^32 holds (the counters are unsigned machine integers), the size stays
within [0, capacity], the full flag holds exactly when size = capacity, and
hwm is the maximum size observed so far; moreover a put on a full buffer
overwrites the oldest item (the one at the tail), advances head and tail
modulo the capacity, and counts one overflow. -/
theorem C6_circular_buffer_invariants (c : Nat) (hc : 1 ≤ c) (ops : List BufOp) :
    (runBuf c ops)._puts
      = ((runBuf c ops)._gets + (runBuf c ops)._size + (runBuf c ops)._overflows)
        % UINT_MOD ∧
    (runBuf c ops)._size ≤ c ∧
    ((runBuf c ops)._full = true ↔ (runBuf c ops)._size = c) ∧
    (runBuf c ops)._hwm = (traceSizes (circular_buffer2.init c) ops).foldl max 0 ∧
    (∀ t v, (runBuf c ops)._full = true →
      (circular_buffer2.put t v (runBuf c ops))._head
        = ((runBuf c ops)._head + 1) % c ∧
      (circular_buffer2.put t v (runBuf c ops))._tail
        = ((runBuf c ops)._tail + 1) % c ∧
      (circular_buffer2.put t v (runBuf c ops))._overflows
        = ((runBuf c ops)._overflows + 1) % UINT_MOD ∧
      (circular_buffer2.put t v (runBuf c ops))._buffer ((runBuf c ops)._tail)
        = v) := by
  have hinv : BufInv c (runBuf c ops) :=
    bufInv_run c hc ops (circular_buffer2.init c) (bufInv_init c hc)
  obtain ⟨hcap, hhd, htl, hsz, hfull, hcalc, hft, hhwm, hp, hg, ho, hid⟩ := hinv
  refine ⟨hid, hsz, hfull, ?_, ?_⟩
  · have htr : (runBuf c ops)._hwm
        = (traceSizes (circular_buffer2.init c) ops).foldl max
            (circular_buffer2.init c)._hwm :=
      hwm_run c hc ops (circular_buffer2.init c) (bufInv_init c hc)
    rw [htr]
    rfl
  · intro t v hf
    have hht := hft hf
    refine ⟨?_, ?_, ?_, ?_⟩
    · show ((runBuf c ops)._head + 1) % (runBuf c ops)._capacity = _
      rw [hcap]
    · have e : (circular_buffer2.put t v (runBuf c ops))._tail
          = (if (runBuf c ops)._full = true then
              ((runBuf c ops)._tail + 1) % (runBuf c ops)._capacity
            else (runBuf c ops)._tail) := rfl
      rw [e, if_pos hf, hcap]
    · have e : (circular_buffer2.put t v (runBuf c ops))._overflows
          = (if (runBuf c ops)._full = true then
              ((runBuf c ops)._overflows + 1) % UINT_MOD
            else (runBuf c ops)._overflows) := rfl
      rw [e, if_pos hf]
    · show fupd (runBuf c ops)._buffer (runBuf c ops)._head v ((runBuf c ops)._tail)
        = v
      rw [← hht, fupd_same]

/-- Witness for C6: capacity 2 with three puts (the third overwrites). -/
theorem C6_circular_buffer_invariants_witness :
    1 ≤ 2 ∧
    ((runBuf 2 [BufOp.bput 0 5, BufOp.bput 0 6, BufOp.bput 0 7])._puts
      = ((runBuf 2 [BufOp.bput 0 5, BufOp.bput 0 6, BufOp.bput 0 7])._gets
          + (runBuf 2 [BufOp.bput 0 5, BufOp.bput 0 6, BufOp.bput 0 7])._size
          + (runBuf 2 [BufOp.bput 0 5, BufOp.bput 0 6, BufOp.bput 0 7])._overflows)
        % UINT_MOD ∧
    (runBuf 2 [BufOp.bput 0 5, BufOp.bput 0 6, BufOp.bput 0 7])._size ≤ 2 ∧
    ((runBuf 2 [BufOp.bput 0 5, BufOp.bput 0 6, BufOp.bput 0 7])._full = true ↔
      (runBuf 2 [BufOp.bput 0 5, BufOp.bput 0 6, BufOp.bput 0 7])._size = 2) ∧
    (runBuf 2 [BufOp.bput 0 5, BufOp.bput 0 6, BufOp.bput 0 7])._hwm
      = (traceSizes (circular_buffer2.init 2)
          [BufOp.bput 0 5, BufOp.bput 0 6, BufOp.bput 0 7]).foldl max 0 ∧
    (∀ t v, (runBuf 2 [BufOp.bput 0 5, BufOp.bput 0 6, BufOp.bput 0 7])._full = true →
      (circular_buffer2.put t v
          (runBuf 2 [BufOp.bput 0 5, BufOp.bput 0 6, BufOp.bput 0 7]))._head
        = ((runBuf 2 [BufOp.bput 0 5, BufOp.bput 0 6, BufOp.bput 0 7])._head + 1) % 2 ∧
      (circular_buffer2.put t v
          (runBuf 2 [BufOp.bput 0 5, BufOp.bput 0 6, BufOp.bput 0 7]))._tail
        = ((runBuf 2 [BufOp.bput 0 5, BufOp.bput 0 6, BufOp.bput 0 7])._tail + 1) % 2 ∧
      (circular_buffer2.put t v
          (runBuf 2 [BufOp.bput 0 5, BufOp.bput 0 6, BufOp.bput 0 7]))._overflows
        = ((runBuf 2 [BufOp.bput 0 5, BufOp.bput 0 6, BufOp.bput 0 7])._overflows + 1)
          % UINT_MOD ∧
      (circular_buffer2.put t v
          (runBuf 2 [BufOp.bput 0 5, BufOp.bput 0 6, BufOp.bput 0 7]))._buffer
          ((runBuf 2 [BufOp.bput 0 5, BufOp.bput 0 6, BufOp.bput 0 7])._tail)
        = v)) :=
  ⟨by decide,
   C6_circular_buffer_invariants 2 (by decide)
     [BufOp.bput 0 5, BufOp.bput 0 6, BufOp.bput 0 7]⟩
